import Mathlib

/-!
# Robot-Apocalypse: contamination escalation and inventory upsert

A shallow embedding of `src/main.go`.

The relational store behind the global `db *sql.DB` handle is a record of
tables (lists of rows, in storage order).  A statement sent to the store
either executes with its SQL meaning or fails with an error and no effect
(connectivity loss, a value out of the column's range, ...); which of the two
happens is read from a schedule of fault flags carried by the handle, one flag
per statement, so that every interleaving of storage faults is covered.
Statements sent through `db` itself run each on their own, so their flags are
independent.  Inside a transaction they are not: `main.go` opens the store
with the `postgres` driver, where a statement that fails with a storage error
aborts its transaction, and every later statement on that transaction fails.

* `UPDATE ... WHERE id = $1` rewrites every matching row and reports no error
  when no row matches.
* `QueryRow(...).Scan(...)` yields the first matching row, and
  `sql.ErrNoRows` when there is none.
* Statements run on a transaction act on a working copy of the tables that
  replaces the committed tables at `Commit` only.
* The schema is not part of the sources: tables carry no uniqueness or
  foreign-key constraint, `contamination_reports` is a non-NULL integer, an
  `INSERT` draws the `id` of the new row from a generator of the store, and
  the columns an `INSERT` does not name take defaults that are parameters.
-/

namespace RobotApocalypse

/-! ## Data model -/

/-- Inventory: the resources a survivor owns (`type Inventory struct`). -/
structure Inventory where
  water : String
  food : String
  medication : String
  ammunition : String
deriving DecidableEq, Repr

/-- Location: latitude and longitude of a survivor (`type Location struct`).
The code only stores `float64` coordinates and compares them for equality (in
the `locations` lookup), so a coordinate is the rational number that a finite
`float64` denotes. -/
structure Location where
  latitude : Rat
  longitude : Rat
deriving DecidableEq, Repr

/-- A row of the `survivors` table, with the columns the statements of
`main.go` name. -/
structure SurvivorRow where
  id : Int
  name : String
  age : Int
  gender : String
  locationId : Option Int
  infected : Bool
  contaminationReports : Int
  latitude : Rat
  longitude : Rat
  water : String
  food : String
  medication : String
  ammunition : String

/-- A row of the `inventory` table. -/
structure InventoryRow where
  id : Int
  survivorId : Int
  water : String
  food : String
  medication : String
  ammunition : String
deriving DecidableEq, Repr

/-- A row of the `locations` table. -/
structure LocationRow where
  id : Int
  latitude : Rat
  longitude : Rat

/-- The committed tables of the store. -/
structure Store where
  survivors : List SurvivorRow
  inventory : List InventoryRow
  locations : List LocationRow

/-- Go `error` values coming back from `database/sql`: `sql.ErrNoRows`, or any
other failure of the statement. -/
inductive DbError where
  | errNoRows
  | storage
deriving DecidableEq, Repr

/-- The global handle `db`: the committed tables, the generators of the
surrogate keys (`id` columns filled in by the store on `INSERT`), and the
schedule of fault flags of the statements to come (`true`: the statement
fails; an exhausted schedule means no fault). -/
structure Db where
  store : Store
  nextSurvivorId : Int
  nextInventoryId : Int
  faults : List Bool

/-- Whether the next statement fails. -/
def Db.fault (db : Db) : Bool := db.faults.headD false

/-- The handle once one statement has been sent. -/
def Db.advance (db : Db) : Db := { db with faults := db.faults.tail }

/-- An HTTP response of a handler: status code and, when there is a body, its
single JSON key and value. -/
structure Response where
  status : Nat
  body : Option (String × String)
deriving DecidableEq, Repr

/-! ## `strconv.Atoi` -/

/-- Value of a non-empty run of decimal digits, `none` on any other input. -/
def parseDigits : List Char → Option Nat
  | [] => none
  | cs => cs.foldl (fun acc c =>
      match acc with
      | none => none
      | some n => if c.isDigit then some (10 * n + (c.toNat - 48)) else none) (some 0)

/-- Go `strconv.Atoi`: an optional sign followed by decimal digits, within the
range of a 64-bit `int`; `none` stands for the syntax and range errors. -/
def atoi (s : String) : Option Int :=
  let signed : Option Int :=
    match s.toList with
    | '-' :: ds => (parseDigits ds).map fun n => -(n : Int)
    | '+' :: ds => (parseDigits ds).map fun n => (n : Int)
    | ds => (parseDigits ds).map fun n => (n : Int)
  match signed with
  | none => none
  | some v => if -(2 : Int) ^ 63 ≤ v ∧ v < (2 : Int) ^ 63 then some v else none

/-! ## SQL statements on the tables -/

/-- `UPDATE survivors SET infected = true WHERE id = $1`. -/
def Store.setInfected (s : Store) (sid : Int) : Store :=
  { s with survivors := s.survivors.map fun r =>
      if r.id = sid then { r with infected := true } else r }

/-- `UPDATE survivors SET contamination_reports = contamination_reports + 1
WHERE id = $1`. -/
def Store.addReport (s : Store) (sid : Int) : Store :=
  { s with survivors := s.survivors.map fun r =>
      if r.id = sid then { r with contaminationReports := r.contaminationReports + 1 } else r }

/-- The first row `SELECT ... FROM survivors WHERE id = $1` produces. -/
def Store.survivor? (s : Store) (sid : Int) : Option SurvivorRow :=
  s.survivors.find? fun r => decide (r.id = sid)

/-- `UPDATE survivors SET water = $1, food = $2, medication = $3,
ammunition = $4 WHERE id = $5`. -/
def Store.setSurvivorInventory (s : Store) (inv : Inventory) (sid : Int) : Store :=
  { s with survivors := s.survivors.map fun r =>
      if r.id = sid then
        { r with water := inv.water, food := inv.food,
                 medication := inv.medication, ammunition := inv.ammunition }
      else r }

/-- `SELECT id FROM inventory WHERE survivor_id = $1`, first row. -/
def Store.inventoryId? (s : Store) (sid : Int) : Option Int :=
  (s.inventory.find? fun r => decide (r.survivorId = sid)).map fun r => r.id

/-- `INSERT INTO inventory (survivor_id, water, food, medication, ammunition)
VALUES ($1, $2, $3, $4, $5)`, the `id` column taking the generated key. -/
def Store.insertInventory (s : Store) (newId sid : Int) (inv : Inventory) : Store :=
  { s with inventory := s.inventory ++
      [{ id := newId, survivorId := sid, water := inv.water, food := inv.food,
         medication := inv.medication, ammunition := inv.ammunition }] }

/-- `UPDATE inventory SET water = $1, food = $2, medication = $3,
ammunition = $4 WHERE id = $5`. -/
def Store.setInventory (s : Store) (inv : Inventory) (invId : Int) : Store :=
  { s with inventory := s.inventory.map fun r =>
      if r.id = invId then
        { r with water := inv.water, food := inv.food,
                 medication := inv.medication, ammunition := inv.ammunition }
      else r }

/-- The scalar subquery `(SELECT id FROM locations WHERE latitude = $1 AND
longitude = $2)`: `NULL` without a match, the id of a single match, and an
error (outer `none`) when more than one row matches. -/
def Store.locationId? (s : Store) (loc : Location) : Option (Option Int) :=
  match s.locations.filter fun l => l.latitude == loc.latitude && l.longitude == loc.longitude with
  | [] => some none
  | [l] => some (some l.id)
  | _ => none

/-- `UPDATE survivors SET location_id = (SELECT ...), latitude = $1,
longitude = $2 WHERE id = $3`; `none` when the subquery fails. -/
def Store.setLocation (s : Store) (loc : Location) (sid : Int) : Option Store :=
  match s.locationId? loc with
  | none => none
  | some lid => some { s with survivors := s.survivors.map fun r =>
      if r.id = sid then
        { r with locationId := lid, latitude := loc.latitude, longitude := loc.longitude }
      else r }

/-- Number of inventory records of a survivor. -/
def Store.inventoryCount (s : Store) (sid : Int) : Nat :=
  (s.inventory.filter fun r => decide (r.survivorId = sid)).length

/-! ## The infection state machine (`main.go`, lines 282-351 and 445-476) -/

/-- `flagSurvivorAsInfected`: one `db.Exec`, its error returned as is. -/
def flagSurvivorAsInfected (db : Db) (survivorID : Int) : Db × Option DbError :=
  if db.fault then (db.advance, some DbError.storage)
  else ({ db.advance with store := db.store.setInfected survivorID }, none)

/-- `checkSurvivorInfectionStatus`: `QueryRow(...).Scan(&isInfected)`; on an
error the zero value `false` is returned next to it. -/
def checkSurvivorInfectionStatus (db : Db) (survivorID : Int) : Db × Bool × Option DbError :=
  if db.fault then (db.advance, false, some DbError.storage)
  else
    match db.store.survivor? survivorID with
    | none => (db.advance, false, some DbError.errNoRows)
    | some r => (db.advance, r.infected, none)

/-- `incrementContaminationReports`: one `db.Exec`, its error returned as is. -/
def incrementContaminationReports (db : Db) (survivorID : Int) : Db × Option DbError :=
  if db.fault then (db.advance, some DbError.storage)
  else ({ db.advance with store := db.store.addReport survivorID }, none)

/-- `checkContaminationThreshold`: `QueryRow(...).Scan(&contaminationReports)`
and `contaminationReports >= 3`; on an error the counter is still `0`. -/
def checkContaminationThreshold (db : Db) (survivorID : Int) : Db × Bool × Option DbError :=
  if db.fault then (db.advance, decide ((0 : Int) ≥ 3), some DbError.storage)
  else
    match db.store.survivor? survivorID with
    | none => (db.advance, decide ((0 : Int) ≥ 3), some DbError.errNoRows)
    | some r => (db.advance, decide (r.contaminationReports ≥ 3), none)

/-- `c.JSON(status, gin.H{"error": msg})`. -/
def errorResponse (status : Nat) (msg : String) : Response :=
  { status := status, body := some ("error", msg) }

/-- `c.Status(http.StatusNoContent)`. -/
def noContent : Response := { status := 204, body := none }

/-- `submitInfectionReportHandler`, applied to the `id` path parameter. -/
def submitInfectionReportHandler (db : Db) (idParam : String) : Db × Response :=
  match atoi idParam with
  | none => (db, errorResponse 400 "Invalid survivor ID")
  | some survivorID =>
    let inc := incrementContaminationReports db survivorID
    match inc.2 with
    | some _ => (inc.1, errorResponse 500 "Failed to increment contamination reports")
    | none =>
      let thr := checkContaminationThreshold inc.1 survivorID
      match thr.2.2 with
      | some _ => (thr.1, errorResponse 500 "Failed to check contamination threshold")
      | none =>
        if thr.2.1 then
          let flag := flagSurvivorAsInfected thr.1 survivorID
          match flag.2 with
          | some _ => (flag.1, errorResponse 500 "Failed to update survivor infection status")
          | none => (flag.1, noContent)
        else (thr.1, noContent)

/-- `flagSurvivorAsInfectedHandler`, applied to the `id` path parameter. -/
def flagSurvivorAsInfectedHandler (db : Db) (idParam : String) : Db × Response :=
  match atoi idParam with
  | none => (db, errorResponse 400 "Invalid survivor ID")
  | some survivorID =>
    let chk := checkSurvivorInfectionStatus db survivorID
    match chk.2.2 with
    | some _ => (chk.1, errorResponse 500 "Failed to check survivor infection status")
    | none =>
      if chk.2.1 then (chk.1, errorResponse 400 "Survivor is already infected")
      else
        let inc := incrementContaminationReports chk.1 survivorID
        match inc.2 with
        | some _ => (inc.1, errorResponse 500 "Failed to increment contamination reports")
        | none =>
          let thr := checkContaminationThreshold inc.1 survivorID
          match thr.2.2 with
          | some _ => (thr.1, errorResponse 500 "Failed to check contamination threshold")
          | none =>
            if thr.2.1 then
              let flag := flagSurvivorAsInfected thr.1 survivorID
              match flag.2 with
              | some _ => (flag.1, errorResponse 500 "Failed to update survivor infection status")
              | none => (flag.1, noContent)
            else (thr.1, noContent)

/-! ## Location and inventory updates (`main.go`, lines 176-280) -/

/-- `updateSurvivorLocation`: `db.Prepare`, then `Exec` of the prepared
`UPDATE`; either error is returned as is. -/
def updateSurvivorLocation (db : Db) (survivorID : Int) (location : Location) :
    Db × Option DbError :=
  -- updateStmt, err := db.Prepare(...)
  if db.fault then (db.advance, some DbError.storage)
  else
    let db1 := db.advance
    -- _, err = updateStmt.Exec(location.Latitude, location.Longitude, survivorID)
    if db1.fault then (db1.advance, some DbError.storage)
    else
      match db1.store.setLocation location survivorID with
      | none => (db1.advance, some DbError.storage)
      | some s => ({ db1.advance with store := s }, none)

/-- `updateSurvivorInventory`.  `tx` is the working copy of the tables the
transaction writes to; every `return err` leaves through the deferred
`tx.Rollback()`, which drops the working copy, and only a `tx.Commit()` that
succeeds installs it.  A key drawn for the `INSERT` stays drawn.  The read of
the inventory id is the one statement after whose failure the function goes
on: when it failed with a storage error the transaction is aborted and the
`Prepare` that follows fails, whereas `sql.ErrNoRows` leaves the transaction
usable. -/
def updateSurvivorInventory (db : Db) (survivorID : Int) (inventory : Inventory) :
    Db × Option DbError :=
  -- tx, err := db.Begin()
  if db.fault then (db.advance, some DbError.storage)
  else
    let db1 := db.advance
    let tx0 := db.store
    -- updateSurvivorStmt, err := tx.Prepare("UPDATE survivors SET ...")
    if db1.fault then (db1.advance, some DbError.storage)
    else
      let db2 := db1.advance
      -- _, err = updateSurvivorStmt.Exec(...)
      if db2.fault then (db2.advance, some DbError.storage)
      else
        let db3 := db2.advance
        let tx1 := tx0.setSurvivorInventory inventory survivorID
        -- err = tx.QueryRow("SELECT id FROM inventory WHERE survivor_id = $1", survivorID).Scan(&existingInventoryID)
        let read : Except DbError Int :=
          if db3.fault then Except.error DbError.storage
          else
            match tx1.inventoryId? survivorID with
            | none => Except.error DbError.errNoRows
            | some existingInventoryID => Except.ok existingInventoryID
        let db4 := db3.advance
        match read with
        | Except.error err =>
          let aborted : Bool := decide (err = DbError.storage)
          -- if err != nil: insertInventoryStmt, err := tx.Prepare("INSERT INTO inventory ...")
          if aborted || db4.fault then (db4.advance, some DbError.storage)
          else
            let db5 := db4.advance
            -- _, err = insertInventoryStmt.Exec(...)
            if db5.fault then (db5.advance, some DbError.storage)
            else
              let db6 := { db5.advance with nextInventoryId := db5.nextInventoryId + 1 }
              let tx2 := tx1.insertInventory db5.nextInventoryId survivorID inventory
              -- err = tx.Commit()
              if db6.fault then (db6.advance, some DbError.storage)
              else ({ db6.advance with store := tx2 }, none)
        | Except.ok existingInventoryID =>
          -- else: updateInventoryStmt, err := tx.Prepare("UPDATE inventory SET ...")
          if db4.fault then (db4.advance, some DbError.storage)
          else
            let db5 := db4.advance
            -- _, err = updateInventoryStmt.Exec(..., existingInventoryID)
            if db5.fault then (db5.advance, some DbError.storage)
            else
              let db6 := db5.advance
              let tx2 := tx1.setInventory inventory existingInventoryID
              -- err = tx.Commit()
              if db6.fault then (db6.advance, some DbError.storage)
              else ({ db6.advance with store := tx2 }, none)

/-! ## Runs of the engine -/

/-- The operations of the engine that write to the `survivors` table, each
with its arguments. -/
inductive EngineOp where
  | submitInfectionReportHandler (idParam : String)
  | flagSurvivorAsInfectedHandler (idParam : String)
  | flagSurvivorAsInfected (survivorID : Int)
  | incrementContaminationReports (survivorID : Int)
  | updateSurvivorInventory (survivorID : Int) (inventory : Inventory)
  | updateSurvivorLocation (survivorID : Int) (location : Location)

/-- The handle after one operation of the engine, whatever it returned. -/
def EngineOp.run (db : Db) : EngineOp → Db
  | EngineOp.submitInfectionReportHandler p => (RobotApocalypse.submitInfectionReportHandler db p).1
  | EngineOp.flagSurvivorAsInfectedHandler p => (RobotApocalypse.flagSurvivorAsInfectedHandler db p).1
  | EngineOp.flagSurvivorAsInfected sid => (RobotApocalypse.flagSurvivorAsInfected db sid).1
  | EngineOp.incrementContaminationReports sid => (RobotApocalypse.incrementContaminationReports db sid).1
  | EngineOp.updateSurvivorInventory sid inv => (RobotApocalypse.updateSurvivorInventory db sid inv).1
  | EngineOp.updateSurvivorLocation sid loc => (RobotApocalypse.updateSurvivorLocation db sid loc).1

/-- Successive requests to the report endpoint for one `id` parameter, one
fault schedule per request; `none` as soon as a request is not answered
`204 No Content`. -/
def submitReports (idParam : String) : List (List Bool) → Db → Option Db
  | [], db => some db
  | fs :: rest, db =>
    let r := submitInfectionReportHandler { db with faults := fs } idParam
    if r.2.status = 204 then submitReports idParam rest r.1 else none

/-- The `infected` column as `checkSurvivorInfectionStatus` reads it. -/
def Store.infected? (s : Store) (sid : Int) : Option Bool :=
  (s.survivor? sid).map fun r => r.infected

/-- The `contamination_reports` column as `checkContaminationThreshold` reads it. -/
def Store.reports? (s : Store) (sid : Int) : Option Int :=
  (s.survivor? sid).map fun r => r.contaminationReports

/-- The four resource levels of an inventory record. -/
def InventoryRow.levels (r : InventoryRow) : Inventory :=
  { water := r.water, food := r.food, medication := r.medication, ammunition := r.ammunition }

/-- The denormalized resource levels of a survivor row. -/
def SurvivorRow.levels (r : SurvivorRow) : Inventory :=
  { water := r.water, food := r.food, medication := r.medication, ammunition := r.ammunition }

/-! ## Sample data -/

/-- A survivor row with the given key, flag and counter. -/
def sampleSurvivor (id : Int) (infected : Bool) (reports : Int) : SurvivorRow :=
  { id := id, name := "Ada", age := 30, gender := "F", locationId := none,
    infected := infected, contaminationReports := reports,
    latitude := 0, longitude := 0,
    water := "high", food := "high", medication := "high", ammunition := "high" }

/-- An inventory row with all four levels equal. -/
def sampleInventoryRow (id sid : Int) (level : String) : InventoryRow :=
  { id := id, survivorId := sid, water := level, food := level,
    medication := level, ammunition := level }

/-- A handle on the given tables with the given fault schedule. -/
def sampleDb (survivors : List SurvivorRow) (inventory : List InventoryRow)
    (faults : List Bool) : Db :=
  { store := { survivors := survivors, inventory := inventory, locations := [] },
    nextSurvivorId := 100, nextInventoryId := 100, faults := faults }

/-- The payload of the inventory scenario. -/
def samplePayload : Inventory :=
  { water := "low", food := "none", medication := "none", ammunition := "low" }

/-! ## Registration (`main.go`, lines 90-153) -/

/-- Survivor: the JSON body of a registration and of its reply
(`type Survivor struct`). -/
structure Survivor where
  id : Int
  name : String
  age : Int
  gender : String
  locationID : Int
  infected : Bool
  location : Location
  inventory : Inventory
deriving DecidableEq, Repr

/-- The values the store gives to the columns of `survivors` that the `INSERT`
of the registration does not name.  The schema is not part of the sources, so
they are parameters. -/
structure SurvivorDefaults where
  contaminationReports : Int
  latitude : Rat
  longitude : Rat

/-- The reply of `registerSurvivorHandler`: an error response, or
`201 Created` with the survivor as scanned back from the store. -/
inductive RegisterReply where
  | failure (response : Response)
  | created (survivor : Survivor)
deriving DecidableEq, Repr

/-- Status code of a registration reply. -/
def RegisterReply.status : RegisterReply → Nat
  | RegisterReply.failure r => r.status
  | RegisterReply.created _ => 201

/-- The row that `INSERT INTO survivors (name, age, gender, location_id,
infected, water, food, medication, ammunition) VALUES ($1, $2, $3, (SELECT
...), $6, $7, $8, $9, $10)` writes: the generated key, the nine named columns
from the parameters, every other column from its default. -/
def insertedSurvivorRow (defaults : SurvivorDefaults) (newId : Int) (lid : Option Int)
    (v : Survivor) : SurvivorRow :=
  { id := newId, name := v.name, age := v.age, gender := v.gender, locationId := lid,
    infected := v.infected, contaminationReports := defaults.contaminationReports,
    latitude := defaults.latitude, longitude := defaults.longitude,
    water := v.inventory.water, food := v.inventory.food,
    medication := v.inventory.medication, ammunition := v.inventory.ammunition }

/-- `registerSurvivorHandler`, applied to the outcome of `c.ShouldBindJSON`
(`none`: the body is not valid JSON for a `Survivor`).  The `INSERT ...
RETURNING` fails as a statement on a storage fault or when the location
subquery yields several rows; once it has run, the `Scan` of a `NULL`
`location_id` into an `int` is an error as well. -/
def registerSurvivorHandler (defaults : SurvivorDefaults) (db : Db) (body : Option Survivor) :
    Db × RegisterReply :=
  match body with
  | none => (db, RegisterReply.failure (errorResponse 400 "Invalid JSON format"))
  | some newSurvivor =>
    -- err := db.QueryRow(insertSurvivorQuery, ...).Scan(...)
    if db.fault then
      (db.advance, RegisterReply.failure
        (errorResponse 500 "Failed to insert new survivor into the database"))
    else
      match db.store.locationId? newSurvivor.location with
      | none =>
        (db.advance, RegisterReply.failure
          (errorResponse 500 "Failed to insert new survivor into the database"))
      | some lid =>
        let row := insertedSurvivorRow defaults db.nextSurvivorId lid newSurvivor
        let db1 : Db :=
          { db.advance with
            store := { db.store with survivors := db.store.survivors ++ [row] },
            nextSurvivorId := db.nextSurvivorId + 1 }
        match row.locationId with
        | none =>
          (db1, RegisterReply.failure
            (errorResponse 500 "Failed to insert new survivor into the database"))
        | some locationID =>
          let scanned : Survivor :=
            { newSurvivor with
              id := row.id, name := row.name, age := row.age, gender := row.gender,
              locationID := locationID, infected := row.infected,
              inventory := row.levels }
          -- _, err = db.Exec(insertInventoryQuery, newSurvivor.ID, ...)
          if db1.fault then
            (db1.advance, RegisterReply.failure
              (errorResponse 500 "Failed to insert inventory for the survivor"))
          else
            ({ db1.advance with
                store := db1.store.insertInventory db1.nextInventoryId scanned.id
                  scanned.inventory,
                nextInventoryId := db1.nextInventoryId + 1 },
              RegisterReply.created scanned)

/-! ## Robots (`main.go`, lines 353-396) -/

/-- Robot: a robot with its category and location (`type Robot struct`). -/
structure Robot where
  category : String
  location : Location
deriving DecidableEq, Repr

/-- What `http.Get(apiURL)` and the JSON decoder deliver to `fetchRobots`. -/
inductive RobotFeed where
  | getFailed
  | decodeFailed
  | decoded (robots : List Robot)
deriving DecidableEq, Repr

/-- The errors `fetchRobots` passes on. -/
inductive FetchError where
  | get
  | decode
deriving DecidableEq, Repr

/-- State of `for _, robot := range robots`: the slice `robots`, and the loop
variable `robot` once an iteration has run. -/
structure RangeState where
  robots : List Robot
  robot : Option Robot
deriving DecidableEq, Repr

/-- One iteration over the element `elem`: `robot` receives a copy of the
element, and `robot.Category = "Land"` writes to that copy. -/
def rangeStep (st : RangeState) (elem : Robot) : RangeState :=
  let robot := elem
  if robot.category = "Flying" then
    { st with robot := some { robot with category := "Land" } }
  else
    { st with robot := some robot }

/-- `fetchRobots`, applied to the outcome of the request; it returns the slice
and the error. -/
def fetchRobots (feed : RobotFeed) : List Robot × Option FetchError :=
  match feed with
  | RobotFeed.getFailed => ([], some FetchError.get)
  | RobotFeed.decodeFailed => ([], some FetchError.decode)
  | RobotFeed.decoded robots =>
    ((robots.foldl rangeStep { robots := robots, robot := none }).robots, none)

/-! ## Statistics (`main.go`, lines 398-421) -/

/-- `COUNT(*) FILTER (WHERE infected)`. -/
def Store.infectedCount (s : Store) : Nat :=
  (s.survivors.filter fun r => r.infected).length

/-- `COUNT(*) FILTER (WHERE NOT infected)`. -/
def Store.nonInfectedCount (s : Store) : Nat :=
  (s.survivors.filter fun r => !r.infected).length

/-- The row of the percentages query: `COUNT(*) FILTER (WHERE infected) * 100 /
COUNT(*)` and `COUNT(*) FILTER (WHERE NOT infected) * 100 / COUNT(*)`, integer
divisions of counts; `none` when `COUNT(*)` is 0 and the division fails. -/
def Store.percentages? (s : Store) : Option (Int × Int) :=
  if s.survivors.length = 0 then none
  else some (((s.infectedCount * 100 / s.survivors.length : Nat) : Int),
             ((s.nonInfectedCount * 100 / s.survivors.length : Nat) : Int))

/-- The reply of `getSurvivorPercentagesHandler`: an error response, or
`200 OK` with the numbers under the keys `"infected"` and `"non_infected"`.
The numbers are the integers handed to `float64(...)`, which lie between -100
and 100 and convert exactly. -/
inductive PercentagesReply where
  | failure (response : Response)
  | ok (infected : Int) (nonInfected : Int)
deriving DecidableEq, Repr

/-- `getSurvivorPercentagesHandler`: the two columns of the query are scanned
into `infectedCount` and `totalCount`. -/
def getSurvivorPercentagesHandler (db : Db) : Db × PercentagesReply :=
  -- err := db.QueryRow(query).Scan(&infectedCount, &totalCount)
  if db.fault then
    (db.advance, PercentagesReply.failure
      (errorResponse 500 "Error querying survivor percentages"))
  else
    match db.store.percentages? with
    | none =>
      (db.advance, PercentagesReply.failure
        (errorResponse 500 "Error querying survivor percentages"))
    | some (infectedCount, totalCount) =>
      (db.advance, PercentagesReply.ok infectedCount (totalCount - infectedCount))

/-! ## Fault-free runs and the threshold invariant -/

/-- No statement to come fails. -/
def Db.faultFree (db : Db) : Prop := ∀ f ∈ db.faults, f = false

/-- Every survivor id read with 3 reports or more is read as infected. -/
def Store.thresholdFlagged (s : Store) : Prop :=
  ∀ sid k, s.reports? sid = some k → k ≥ 3 → s.infected? sid = some true

/-- Every row with 3 reports or more is infected. -/
def Store.rowsFlagged (s : Store) : Prop :=
  ∀ r ∈ s.survivors, r.contaminationReports ≥ 3 → r.infected = true

/-- The tables after a report that found the row `r` of the survivor: one
report more, and the flag raised when the new count reaches 3. -/
def reported (s : Store) (sid : Int) (r : SurvivorRow) : Store :=
  if r.contaminationReports + 1 ≥ 3 then (s.addReport sid).setInfected sid
  else s.addReport sid

/-- A location row. -/
def sampleLocation (id : Int) (latitude longitude : Rat) : LocationRow :=
  { id := id, latitude := latitude, longitude := longitude }

/-- A registration body. -/
def sampleBody (infected : Bool) : Survivor :=
  { id := 0, name := "Lin", age := 41, gender := "M", locationID := 0, infected := infected,
    location := { latitude := 12, longitude := 33 },
    inventory := { water := "low", food := "low", medication := "none", ammunition := "none" } }

/-- A handle on a store that knows the location of `sampleBody` and holds the
given survivors. -/
def sampleRegistry (survivors : List SurvivorRow) (faults : List Bool) : Db :=
  { store := { survivors := survivors, inventory := [],
               locations := [sampleLocation 4 12 33] },
    nextSurvivorId := 100, nextInventoryId := 100, faults := faults }

/-- Column defaults under which the counter starts at 0. -/
def sampleDefaults : SurvivorDefaults :=
  { contaminationReports := 0, latitude := 0, longitude := 0 }

/-! ## Auxiliary notions for the statements -/

/-- Rows keep their key and never lose the `infected` flag. -/
def RowKept (f : SurvivorRow → SurvivorRow) : Prop :=
  ∀ r, (f r).id = r.id ∧ (r.infected = true → (f r).infected = true)

/-- The survivors of `t` are those of `s` rewritten row by row, keys and
raised flags kept. -/
def Store.Kept (s t : Store) : Prop :=
  ∃ f, RowKept f ∧ t.survivors = s.survivors.map f

/-- The tables a committed upsert installs when the read of the inventory id
was answered: the survivor row rewritten, and the inventory row updated in
place, or inserted when there was none. -/
def upserted (db : Db) (sid : Int) (inv : Inventory) : Store :=
  match (db.store.setSurvivorInventory inv sid).inventoryId? sid with
  | none => (db.store.setSurvivorInventory inv sid).insertInventory db.nextInventoryId sid inv
  | some k => (db.store.setSurvivorInventory inv sid).setInventory inv k

/-! ## Rows through a rewriting of the survivors table -/

theorem find?_map_sameId (f : SurvivorRow → SurvivorRow) (hf : ∀ r, (f r).id = r.id)
    (l : List SurvivorRow) (sid : Int) :
    (l.map f).find? (fun r => decide (r.id = sid))
      = (l.find? (fun r => decide (r.id = sid))).map f := by
  induction l with
  | nil => rfl
  | cons a t ih =>
    by_cases h : a.id = sid
    · simp [List.find?, hf, h]
    · simp [List.find?, hf, h, ih]


theorem Store.Kept.refl (s : Store) : s.Kept s :=
  ⟨id, fun _ => ⟨rfl, fun h => h⟩, by simp⟩

theorem Store.Kept.trans {s t u : Store} (h1 : s.Kept t) (h2 : t.Kept u) : s.Kept u := by
  obtain ⟨f, hf, e1⟩ := h1
  obtain ⟨g, hg, e2⟩ := h2
  refine ⟨g ∘ f, fun r => ⟨?_, fun h => ?_⟩, by simp [e2, e1]⟩
  · simp [(hg (f r)).1, (hf r).1]
  · exact (hg (f r)).2 ((hf r).2 h)

theorem Store.Kept.infected {s t : Store} (h : s.Kept t) (sid : Int)
    (hi : s.infected? sid = some true) : t.infected? sid = some true := by
  obtain ⟨f, hf, e⟩ := h
  unfold Store.infected? Store.survivor? at *
  rw [e, find?_map_sameId f (fun r => (hf r).1)]
  cases hr : s.survivors.find? (fun r => decide (r.id = sid)) with
  | none => simp [hr] at hi
  | some r =>
    simp [hr] at hi
    simp [(hf r).2 hi]

theorem kept_setInfected (s : Store) (sid : Int) : s.Kept (s.setInfected sid) :=
  ⟨_, fun r => by by_cases h : r.id = sid <;> simp [h], rfl⟩

theorem kept_addReport (s : Store) (sid : Int) : s.Kept (s.addReport sid) :=
  ⟨_, fun r => by by_cases h : r.id = sid <;> simp [h], rfl⟩

theorem kept_setSurvivorInventory (s : Store) (inv : Inventory) (sid : Int) :
    s.Kept (s.setSurvivorInventory inv sid) :=
  ⟨_, fun r => by by_cases h : r.id = sid <;> simp [h], rfl⟩

theorem kept_setLocation (s t : Store) (loc : Location) (sid : Int)
    (h : s.setLocation loc sid = some t) : s.Kept t := by
  unfold Store.setLocation at h
  cases hl : s.locationId? loc with
  | none => simp [hl] at h
  | some lid =>
    simp [hl] at h
    subst h
    exact ⟨_, fun r => by by_cases h : r.id = sid <;> simp [h], rfl⟩

theorem kept_flagSurvivorAsInfected (db : Db) (sid : Int) :
    db.store.Kept (flagSurvivorAsInfected db sid).1.store := by
  unfold flagSurvivorAsInfected
  split
  · exact Store.Kept.refl _
  · exact kept_setInfected _ _

theorem kept_incrementContaminationReports (db : Db) (sid : Int) :
    db.store.Kept (incrementContaminationReports db sid).1.store := by
  unfold incrementContaminationReports
  split
  · exact Store.Kept.refl _
  · exact kept_addReport _ _

theorem store_checkContaminationThreshold (db : Db) (sid : Int) :
    (checkContaminationThreshold db sid).1.store = db.store := by
  unfold checkContaminationThreshold
  split
  · rfl
  · split <;> rfl

theorem store_checkSurvivorInfectionStatus (db : Db) (sid : Int) :
    (checkSurvivorInfectionStatus db sid).1.store = db.store := by
  unfold checkSurvivorInfectionStatus
  split
  · rfl
  · split <;> rfl

theorem kept_submitInfectionReportHandler (db : Db) (p : String) :
    db.store.Kept (submitInfectionReportHandler db p).1.store := by
  have h1 := fun sid => kept_incrementContaminationReports db sid
  have h2 := fun sid => store_checkContaminationThreshold (incrementContaminationReports db sid).1 sid
  have h3 := fun sid => kept_flagSurvivorAsInfected (checkContaminationThreshold (incrementContaminationReports db sid).1 sid).1 sid
  unfold submitInfectionReportHandler
  split
  · exact Store.Kept.refl _
  · rename_i sid _
    simp only []
    split
    · exact h1 sid
    · split
      · rw [h2]; exact h1 sid
      · split
        · have := h3 sid
          rw [h2] at this
          split <;> exact (h1 sid).trans this
        · rw [h2]; exact h1 sid

theorem kept_flagSurvivorAsInfectedHandler (db : Db) (p : String) :
    db.store.Kept (flagSurvivorAsInfectedHandler db p).1.store := by
  have h0 := fun sid => store_checkSurvivorInfectionStatus db sid
  have h1 := fun sid =>
    kept_incrementContaminationReports (checkSurvivorInfectionStatus db sid).1 sid
  have h2 := fun sid => store_checkContaminationThreshold
    (incrementContaminationReports (checkSurvivorInfectionStatus db sid).1 sid).1 sid
  have h3 := fun sid => kept_flagSurvivorAsInfected (checkContaminationThreshold
    (incrementContaminationReports (checkSurvivorInfectionStatus db sid).1 sid).1 sid).1 sid
  unfold flagSurvivorAsInfectedHandler
  split
  · exact Store.Kept.refl _
  · rename_i sid _
    have k1 := h1 sid
    rw [h0] at k1
    simp only []
    split
    · rw [h0]; exact Store.Kept.refl _
    · split
      · rw [h0]; exact Store.Kept.refl _
      · split
        · exact k1
        · split
          · rw [h2]; exact k1
          · split
            · have k3 := h3 sid
              rw [h2] at k3
              split <;> exact k1.trans k3
            · rw [h2]; exact k1

theorem kept_updateSurvivorLocation (db : Db) (sid : Int) (loc : Location) :
    db.store.Kept (updateSurvivorLocation db sid loc).1.store := by
  unfold updateSurvivorLocation
  split
  · exact Store.Kept.refl _
  · simp only []
    split
    · exact Store.Kept.refl _
    · split
      · exact Store.Kept.refl _
      · rename_i s hs
        exact kept_setLocation _ _ _ _ hs

theorem kept_insertInventory (s t : Store) (k sid : Int) (inv : Inventory) (h : s.Kept t) :
    s.Kept (t.insertInventory k sid inv) := h

theorem kept_setInventory (s t : Store) (k : Int) (inv : Inventory) (h : s.Kept t) :
    s.Kept (t.setInventory inv k) := h

theorem kept_updateSurvivorInventory (db : Db) (sid : Int) (inv : Inventory) :
    db.store.Kept (updateSurvivorInventory db sid inv).1.store := by
  have k := kept_setSurvivorInventory db.store inv sid
  unfold updateSurvivorInventory
  simp only []
  repeat' split
  all_goals first
    | exact Store.Kept.refl _
    | exact kept_insertInventory _ _ _ _ _ k
    | exact kept_setInventory _ _ _ _ k

/-! ## Reading rows back after an update -/

theorem survivor?_id {s : Store} {sid : Int} {r : SurvivorRow}
    (h : s.survivor? sid = some r) : r.id = sid := by
  have := List.find?_some h
  simpa using this

theorem survivor?_addReport (s : Store) (sid : Int) :
    (s.addReport sid).survivor? sid
      = (s.survivor? sid).map
          fun r => { r with contaminationReports := r.contaminationReports + 1 } := by
  unfold Store.addReport Store.survivor?
  simp only []
  rw [find?_map_sameId _ (fun r => by by_cases h : r.id = sid <;> simp [h])]
  cases hr : s.survivors.find? (fun r => decide (r.id = sid)) with
  | none => rfl
  | some r =>
    have := List.find?_some hr
    simp at this
    simp [this]

theorem survivor?_setInfected (s : Store) (sid : Int) :
    (s.setInfected sid).survivor? sid
      = (s.survivor? sid).map fun r => { r with infected := true } := by
  unfold Store.setInfected Store.survivor?
  simp only []
  rw [find?_map_sameId _ (fun r => by by_cases h : r.id = sid <;> simp [h])]
  cases hr : s.survivors.find? (fun r => decide (r.id = sid)) with
  | none => rfl
  | some r =>
    have := List.find?_some hr
    simp at this
    simp [this]

theorem addReport_absent (s : Store) (sid : Int) (h : s.survivor? sid = none) :
    s.addReport sid = s := by
  unfold Store.survivor? at h
  unfold Store.addReport
  have hall : ∀ r ∈ s.survivors, ¬ r.id = sid := by
    intro r hr
    have := List.find?_eq_none.mp h r hr
    simpa using this
  have : (s.survivors.map fun r =>
      if r.id = sid then { r with contaminationReports := r.contaminationReports + 1 } else r)
      = s.survivors := by
    conv_rhs => rw [← List.map_id s.survivors]
    apply List.map_congr_left
    intro r hr
    simp [hall r hr]
  rw [this]

theorem setInfected_idem (s : Store) (sid : Int) :
    (s.setInfected sid).setInfected sid = s.setInfected sid := by
  unfold Store.setInfected
  simp only [List.map_map]
  congr 1
  apply List.map_congr_left
  intro r _
  by_cases h : r.id = sid <;> simp [h]

/-! ## What an answered report request did -/

/-- A report request answered `204` found the survivor, added one report, and
raised the flag exactly when the new count reached 3. -/
theorem submit_noContent (db : Db) (p : String) (sid : Int) (hp : atoi p = some sid)
    (h : (submitInfectionReportHandler db p).2.status = 204) :
    ∃ r, db.store.survivor? sid = some r ∧
      (submitInfectionReportHandler db p).1.store =
        if r.contaminationReports + 1 ≥ 3 then (db.store.addReport sid).setInfected sid
        else db.store.addReport sid := by
  rcases db with ⟨s, a, b, fl⟩
  cases hs : s.survivor? sid with
  | none =>
    exfalso
    rcases fl with _ | ⟨f0, _ | ⟨f1, _ | ⟨f2, fl⟩⟩⟩
    all_goals (try cases f0) <;> (try cases f1) <;> (try cases f2)
    all_goals simp [submitInfectionReportHandler, hp, incrementContaminationReports,
      checkContaminationThreshold, flagSurvivorAsInfected, Db.fault, Db.advance,
      survivor?_addReport, errorResponse, noContent, hs] at h
  | some r =>
    refine ⟨r, rfl, ?_⟩
    by_cases hr : 3 ≤ r.contaminationReports + 1
    all_goals rcases fl with _ | ⟨f0, _ | ⟨f1, _ | ⟨f2, fl⟩⟩⟩
    all_goals (try cases f0) <;> (try cases f1) <;> (try cases f2)
    all_goals simp [submitInfectionReportHandler, hp, incrementContaminationReports,
      checkContaminationThreshold, flagSurvivorAsInfected, Db.fault, Db.advance,
      survivor?_addReport, errorResponse, noContent, hs, hr] at h ⊢

theorem reports?_some {s : Store} {sid k : Int} (h : s.reports? sid = some k) :
    ∃ r, s.survivor? sid = some r ∧ r.contaminationReports = k := by
  unfold Store.reports? at h
  cases hs : s.survivor? sid with
  | none => simp [hs] at h
  | some r => exact ⟨r, rfl, by simpa [hs] using h⟩

theorem infected?_some {s : Store} {sid : Int} {b : Bool} (h : s.infected? sid = some b) :
    ∃ r, s.survivor? sid = some r ∧ r.infected = b := by
  unfold Store.infected? at h
  cases hs : s.survivor? sid with
  | none => simp [hs] at h
  | some r => exact ⟨r, rfl, by simpa [hs] using h⟩

/-- Counter and flag of a survivor after a report request answered `204`. -/
theorem submit_noContent_row (db : Db) (p : String) (sid k : Int) (b : Bool)
    (hp : atoi p = some sid) (hk : db.store.reports? sid = some k)
    (hb : db.store.infected? sid = some b)
    (h : (submitInfectionReportHandler db p).2.status = 204) :
    (submitInfectionReportHandler db p).1.store.reports? sid = some (k + 1) ∧
    (submitInfectionReportHandler db p).1.store.infected? sid
      = some (if k + 1 ≥ 3 then true else b) := by
  obtain ⟨r, hs, hst⟩ := submit_noContent db p sid hp h
  obtain ⟨r1, hs1, hk1⟩ := reports?_some hk
  obtain ⟨r2, hs2, hb2⟩ := infected?_some hb
  rw [hs] at hs1 hs2
  cases hs1
  cases hs2
  rw [hst]
  subst hk1 hb2
  by_cases hr : r.contaminationReports + 1 ≥ 3
  · simp [hr, Store.reports?, Store.infected?, survivor?_setInfected, survivor?_addReport, hs]
  · simp [hr, Store.reports?, Store.infected?, survivor?_addReport, hs]

/-- Without a storage fault a report request for an existing survivor is
answered `204`. -/
theorem submit_faultFree (db : Db) (p : String) (sid : Int) (r : SurvivorRow)
    (hp : atoi p = some sid) (hs : db.store.survivor? sid = some r) (hf : db.faults = []) :
    (submitInfectionReportHandler db p).2.status = 204 := by
  rcases db with ⟨s, a, b, fl⟩
  simp only at hf hs
  subst hf
  by_cases hr : 3 ≤ r.contaminationReports + 1
  all_goals simp [submitInfectionReportHandler, hp, incrementContaminationReports,
      checkContaminationThreshold, flagSurvivorAsInfected, Db.fault, Db.advance,
      survivor?_addReport, errorResponse, noContent, hs, hr]

theorem submitReports_row (p : String) (sid : Int) (hp : atoi p = some sid) :
    ∀ (fss : List (List Bool)) (db db' : Db) (k : Int) (b : Bool),
      db.store.reports? sid = some k → db.store.infected? sid = some b →
      (k ≥ 3 → b = true) → submitReports p fss db = some db' →
      db'.store.reports? sid = some (k + fss.length) ∧
      db'.store.infected? sid = some (b || decide (k + fss.length ≥ 3)) := by
  intro fss
  induction fss with
  | nil =>
    intro db db' k b hk hb hinv h
    simp [submitReports] at h
    subst h
    refine ⟨by simp [hk], ?_⟩
    rw [hb]
    by_cases h3 : k ≥ 3
    · simp [hinv h3]
    · simp at h3
      simp [h3]
  | cons fs rest ih =>
    intro db db' k b hk hb hinv h
    simp only [submitReports] at h
    split at h
    · rename_i hok
      have step := submit_noContent_row { db with faults := fs } p sid k b hp hk hb hok
      have := ih _ db' (k + 1) _ step.1 step.2 (by intro h1; simp [h1]) h
      refine ⟨by rw [this.1]; simp; omega, ?_⟩
      rw [this.2]
      by_cases h1 : k + 1 ≥ 3 <;> by_cases h2 : k + 1 + (rest.length : Int) ≥ 3 <;>
        by_cases h3 : k + ((fs :: rest).length : Int) ≥ 3 <;>
        simp [h1, h2, h3] <;> simp at h1 h2 h3 <;> omega
    · simp at h

theorem submitReports_faultFree (p : String) (sid : Int) (hp : atoi p = some sid) :
    ∀ (n : Nat) (db : Db) (k : Int), db.store.reports? sid = some k →
      (submitReports p (List.replicate n []) db).isSome = true := by
  intro n
  induction n with
  | zero => intro db k _; rfl
  | succ n ih =>
    intro db k hk
    obtain ⟨r, hs, _⟩ := reports?_some hk
    have hok := submit_faultFree { db with faults := [] } p sid r hp hs rfl
    have hb : ({ db with faults := [] } : Db).store.infected? sid = some r.infected := by
      simp [Store.infected?, hs]
    have step := submit_noContent_row { db with faults := [] } p sid k _ hp hk hb hok
    simp only [List.replicate, submitReports, hok, if_true]
    exact ih _ (k + 1) step.1


/-! ## What a call of `updateSurvivorInventory` did -/


/-- The two ways a call ends: an error with the committed tables untouched, or
success after a read that was answered, with `upserted` installed. -/
theorem updateSurvivorInventory_cases (db : Db) (sid : Int) (inv : Inventory) :
    ((updateSurvivorInventory db sid inv).2 = some DbError.storage ∧
      (updateSurvivorInventory db sid inv).1.store = db.store) ∨
    ((updateSurvivorInventory db sid inv).2 = none ∧
      db.advance.advance.advance.fault = false ∧
      (updateSurvivorInventory db sid inv).1.store = upserted db sid inv) := by
  rcases db with ⟨s, a, b, fl⟩
  cases hid : (s.setSurvivorInventory inv sid).inventoryId? sid
  all_goals rcases fl with _ | ⟨f, fl⟩ <;> (try cases f) <;>
    try (simp [updateSurvivorInventory, upserted, Db.fault, Db.advance, hid]; done)
  all_goals rcases fl with _ | ⟨f, fl⟩ <;> (try cases f) <;>
    try (simp [updateSurvivorInventory, upserted, Db.fault, Db.advance, hid]; done)
  all_goals rcases fl with _ | ⟨f, fl⟩ <;> (try cases f) <;>
    try (simp [updateSurvivorInventory, upserted, Db.fault, Db.advance, hid]; done)
  all_goals rcases fl with _ | ⟨f, fl⟩ <;> (try cases f) <;>
    try (simp [updateSurvivorInventory, upserted, Db.fault, Db.advance, hid]; done)
  all_goals rcases fl with _ | ⟨f, fl⟩ <;> (try cases f) <;>
    try (simp [updateSurvivorInventory, upserted, Db.fault, Db.advance, hid]; done)
  all_goals rcases fl with _ | ⟨f, fl⟩ <;> (try cases f) <;>
    try (simp [updateSurvivorInventory, upserted, Db.fault, Db.advance, hid]; done)
  all_goals rcases fl with _ | ⟨f, fl⟩ <;> (try cases f) <;>
    simp [updateSurvivorInventory, upserted, Db.fault, Db.advance, hid]

/-- A call that returns an error leaves the committed tables as they were:
every `return err` goes through the deferred rollback. -/
theorem updateSurvivorInventory_rollback (db : Db) (sid : Int) (inv : Inventory)
    (h : (updateSurvivorInventory db sid inv).2 ≠ none) :
    (updateSurvivorInventory db sid inv).1.store = db.store := by
  rcases updateSurvivorInventory_cases db sid inv with h1 | h1
  · exact h1.2
  · exact absurd h1.1 h

/-- A call that returns no error had its read of the inventory id answered:
after a failed read the transaction is aborted and the call ends in an
error. -/
theorem updateSurvivorInventory_read_answered (db : Db) (sid : Int) (inv : Inventory)
    (h : (updateSurvivorInventory db sid inv).2 = none) :
    db.advance.advance.advance.fault = false := by
  rcases updateSurvivorInventory_cases db sid inv with h1 | h1
  · rw [h1.1] at h; cases h
  · exact h1.2.1

/-- A call that returns no error after an answered read installed `upserted`. -/
theorem updateSurvivorInventory_commit (db : Db) (sid : Int) (inv : Inventory)
    (h : (updateSurvivorInventory db sid inv).2 = none)
    (hread : db.advance.advance.advance.fault = false) :
    (updateSurvivorInventory db sid inv).1.store = upserted db sid inv := by
  rcases db with ⟨s, a, b, fl⟩
  cases hid : (s.setSurvivorInventory inv sid).inventoryId? sid
  all_goals rcases fl with _ | ⟨f, fl⟩ <;> (try cases f) <;>
    try (simp [updateSurvivorInventory, upserted, Db.fault, Db.advance, hid] at h hread ⊢; done)
  all_goals rcases fl with _ | ⟨f, fl⟩ <;> (try cases f) <;>
    try (simp [updateSurvivorInventory, upserted, Db.fault, Db.advance, hid] at h hread ⊢; done)
  all_goals rcases fl with _ | ⟨f, fl⟩ <;> (try cases f) <;>
    try (simp [updateSurvivorInventory, upserted, Db.fault, Db.advance, hid] at h hread ⊢; done)
  all_goals rcases fl with _ | ⟨f, fl⟩ <;> (try cases f) <;>
    try (simp [updateSurvivorInventory, upserted, Db.fault, Db.advance, hid] at h hread ⊢; done)
  all_goals rcases fl with _ | ⟨f, fl⟩ <;> (try cases f) <;>
    try (simp [updateSurvivorInventory, upserted, Db.fault, Db.advance, hid] at h hread ⊢; done)
  all_goals rcases fl with _ | ⟨f, fl⟩ <;> (try cases f) <;>
    try (simp [updateSurvivorInventory, upserted, Db.fault, Db.advance, hid] at h hread ⊢; done)
  all_goals rcases fl with _ | ⟨f, fl⟩ <;> (try cases f) <;>
    simp [updateSurvivorInventory, upserted, Db.fault, Db.advance, hid] at h hread ⊢

theorem filter_le_one_unique {α : Type} (q : α → Bool) (l : List α)
    (h : (l.filter q).length ≤ 1) (x y : α) (hx : x ∈ l) (hy : y ∈ l)
    (qx : q x = true) (qy : q y = true) : x = y := by
  have mx : x ∈ l.filter q := List.mem_filter.mpr ⟨hx, qx⟩
  have my : y ∈ l.filter q := List.mem_filter.mpr ⟨hy, qy⟩
  cases hl : l.filter q with
  | nil => rw [hl] at mx; cases mx
  | cons a t =>
    cases t with
    | nil =>
      rw [hl] at mx my
      simp at mx my
      rw [mx, my]
    | cons b t => rw [hl] at h; simp at h

theorem setInventory_fix (s : Store) (inv : Inventory) (k : Int)
    (h : ∀ r ∈ s.inventory, r.id = k → r.levels = inv) : s.setInventory inv k = s := by
  unfold Store.setInventory
  have : (s.inventory.map fun r =>
      if r.id = k then
        { r with water := inv.water, food := inv.food,
                 medication := inv.medication, ammunition := inv.ammunition }
      else r) = s.inventory := by
    conv_rhs => rw [← List.map_id s.inventory]
    apply List.map_congr_left
    intro r hr
    by_cases hk : r.id = k
    · have := h r hr hk
      subst hk
      simp only [if_true, id]
      rw [← this]
      cases r
      rfl
    · simp [hk]
  rw [this]

theorem setSurvivorInventory_idem (s : Store) (inv : Inventory) (sid : Int) :
    (s.setSurvivorInventory inv sid).setSurvivorInventory inv sid
      = s.setSurvivorInventory inv sid := by
  unfold Store.setSurvivorInventory
  simp only [List.map_map]
  congr 1
  apply List.map_congr_left
  intro r _
  by_cases h : r.id = sid <;> simp [h]

/-- The tables `upserted` builds, when the survivor had at most one inventory
record: exactly one record, holding the payload, and the payload on every
survivor row of that id. -/
theorem upserted_spec (db : Db) (sid : Int) (inv : Inventory)
    (hc : db.store.inventoryCount sid ≤ 1) :
    (upserted db sid inv).inventoryCount sid = 1 ∧
    (∀ r ∈ (upserted db sid inv).inventory, r.survivorId = sid → r.levels = inv) ∧
    (∀ r ∈ (upserted db sid inv).survivors, r.id = sid → r.levels = inv) ∧
    (db.store.inventoryCount sid = 0 →
      (upserted db sid inv).inventory = db.store.inventory ++
        [{ id := db.nextInventoryId, survivorId := sid, water := inv.water, food := inv.food,
           medication := inv.medication, ammunition := inv.ammunition }]) := by
  unfold upserted
  have hinvId : (db.store.setSurvivorInventory inv sid).inventoryId? sid
      = db.store.inventoryId? sid := rfl
  have hsurv : ∀ r ∈ (db.store.setSurvivorInventory inv sid).survivors,
      r.id = sid → r.levels = inv := by
    intro r hr hid
    simp only [Store.setSurvivorInventory, List.mem_map] at hr
    obtain ⟨r0, _, rfl⟩ := hr
    by_cases h0 : r0.id = sid
    · simp [h0, SurvivorRow.levels]
    · simp [h0] at hid
  rw [hinvId]
  unfold Store.inventoryId?
  cases hf : db.store.inventory.find? (fun r => decide (r.survivorId = sid)) with
  | none =>
    have hnone : ∀ r ∈ db.store.inventory, ¬ r.survivorId = sid := by
      intro r hr
      simpa using List.find?_eq_none.mp hf r hr
    have hfil : db.store.inventory.filter (fun r => decide (r.survivorId = sid)) = [] := by
      rw [List.filter_eq_nil_iff]
      intro r hr
      simpa using hnone r hr
    simp only [Option.map_none']
    refine ⟨?_, ?_, hsurv, fun _ => rfl⟩
    · simp [Store.inventoryCount, Store.insertInventory, Store.setSurvivorInventory,
        List.filter_append, hfil]
    · intro r hr hrs
      simp only [Store.insertInventory, Store.setSurvivorInventory, List.mem_append,
        List.mem_singleton] at hr
      rcases hr with hr | hr
      · exact absurd hrs (hnone r hr)
      · subst hr
        rfl
  | some r0 =>
    have hmem : r0 ∈ db.store.inventory := List.mem_of_find?_eq_some hf
    have hq : r0.survivorId = sid := by simpa using List.find?_some hf
    simp only [Option.map_some']
    have hcount : ((db.store.setSurvivorInventory inv sid).setInventory inv r0.id).inventoryCount sid
        = db.store.inventoryCount sid := by
      simp only [Store.inventoryCount, Store.setInventory, Store.setSurvivorInventory,
        List.filter_map, List.length_map]
      congr 1
      apply List.filter_congr
      intro r _
      by_cases hk : r.id = r0.id <;> simp [hk]
    have hpos : 0 < db.store.inventoryCount sid := by
      unfold Store.inventoryCount
      apply List.length_pos_of_mem (a := r0)
      exact List.mem_filter.mpr ⟨hmem, by simpa using hq⟩
    refine ⟨by rw [hcount]; omega, ?_, hsurv, fun h0 => by omega⟩
    intro r hr hrs
    simp only [Store.setInventory, Store.setSurvivorInventory, List.mem_map] at hr
    obtain ⟨r1, hr1, rfl⟩ := hr
    have hrs1 : r1.survivorId = sid := by
      by_cases hk : r1.id = r0.id <;> simpa [hk] using hrs
    have : r1 = r0 := filter_le_one_unique (fun r : InventoryRow => decide (r.survivorId = sid))
      db.store.inventory hc r1 r0 hr1 hmem (by simpa using hrs1) (by simpa using hq)
    subst this
    simp [InventoryRow.levels]

/-- Running the upsert again on the tables it built changes nothing, when the
survivor had at most one inventory record and the key the store hands out
next is not yet in use. -/
theorem upserted_again (db db1 : Db) (sid : Int) (inv : Inventory)
    (hs : db1.store = upserted db sid inv)
    (hfresh : ∀ r ∈ db.store.inventory, r.id ≠ db.nextInventoryId) :
    upserted db1 sid inv = db1.store := by
  have hinvId : ∀ s : Store, (s.setSurvivorInventory inv sid).inventoryId? sid
      = s.inventoryId? sid := fun _ => rfl
  unfold upserted at hs ⊢
  rw [hinvId] at hs ⊢
  rw [hs]
  unfold Store.inventoryId?
  cases hf : db.store.inventory.find? (fun r => decide (r.survivorId = sid)) with
  | none =>
    simp only [Option.map_none']
    have hfind : ((db.store.setSurvivorInventory inv sid).insertInventory
        db.nextInventoryId sid inv).inventory.find? (fun r => decide (r.survivorId = sid))
        = some { id := db.nextInventoryId, survivorId := sid, water := inv.water,
                 food := inv.food, medication := inv.medication,
                 ammunition := inv.ammunition } := by
      simp [Store.insertInventory, Store.setSurvivorInventory, List.find?_append, hf]
    rw [hfind]
    simp only [Option.map_some']
    rw [setInventory_fix]
    · simp only [Store.insertInventory, Store.setSurvivorInventory, List.map_map]
      congr 1
      apply List.map_congr_left
      intro r _
      by_cases h : r.id = sid <;> simp [h]
    · intro r hr hk
      simp only [Store.insertInventory, Store.setSurvivorInventory, List.mem_append,
        List.mem_singleton] at hr
      rcases hr with hr | hr
      · exact absurd hk (hfresh r hr)
      · subst hr
        rfl
  | some r0 =>
    simp only [Option.map_some']
    have hfind : ((db.store.setSurvivorInventory inv sid).setInventory inv r0.id).inventory.find?
        (fun r => decide (r.survivorId = sid))
        = some { r0 with water := inv.water, food := inv.food, medication := inv.medication,
                         ammunition := inv.ammunition } := by
      simp only [Store.setInventory, Store.setSurvivorInventory, List.find?_map]
      have : ((fun r : InventoryRow => decide (r.survivorId = sid)) ∘ fun r : InventoryRow =>
          if r.id = r0.id then
            { r with water := inv.water, food := inv.food, medication := inv.medication,
                     ammunition := inv.ammunition }
          else r) = fun r => decide (r.survivorId = sid) := by
        funext r
        by_cases h : r.id = r0.id <;> simp [h]
      rw [this, hf]
      simp
    rw [hfind]
    simp only [Option.map_some']
    rw [setInventory_fix]
    · simp only [Store.setInventory, Store.setSurvivorInventory, List.map_map]
      congr 1
      apply List.map_congr_left
      intro r _
      by_cases h : r.id = sid <;> simp [h]
    · intro r hr hk
      simp only [Store.setInventory, Store.setSurvivorInventory, List.mem_map] at hr
      obtain ⟨r1, _, rfl⟩ := hr
      by_cases h : r1.id = r0.id
      · simp [h, InventoryRow.levels]
      · simp [h] at hk


/-- Without a storage fault the call returns no error. -/
theorem updateSurvivorInventory_faultFree (db : Db) (sid : Int) (inv : Inventory)
    (hf : db.faults = []) : (updateSurvivorInventory db sid inv).2 = none := by
  rcases db with ⟨s, a, b, fl⟩
  simp only at hf
  subst hf
  cases hid : (s.setSurvivorInventory inv sid).inventoryId? sid <;>
    simp [updateSurvivorInventory, Db.fault, Db.advance, hid]


/-- A storage fault at any of the seven statements of the transaction (begin,
prepare and exec on `survivors`, the read of the inventory id, prepare and
exec on `inventory`, commit) makes the call return an error, the committed
tables left as they were. -/
theorem updateSurvivorInventory_fault_aborts (db : Db) (sid : Int) (inv : Inventory)
    (h : db.fault = true ∨ db.advance.fault = true ∨ db.advance.advance.fault = true ∨
      db.advance.advance.advance.fault = true ∨
      db.advance.advance.advance.advance.fault = true ∨
      db.advance.advance.advance.advance.advance.fault = true ∨
      db.advance.advance.advance.advance.advance.advance.fault = true) :
    (updateSurvivorInventory db sid inv).2 = some DbError.storage ∧
    (updateSurvivorInventory db sid inv).1.store = db.store := by
  rcases db with ⟨s, a, b, fl⟩
  cases hid : (s.setSurvivorInventory inv sid).inventoryId? sid
  all_goals rcases fl with _ | ⟨f, fl⟩ <;> (try cases f) <;>
    try (simp [updateSurvivorInventory, Db.fault, Db.advance, hid] at h ⊢; done)
  all_goals rcases fl with _ | ⟨f, fl⟩ <;> (try cases f) <;>
    try (simp [updateSurvivorInventory, Db.fault, Db.advance, hid] at h ⊢; done)
  all_goals rcases fl with _ | ⟨f, fl⟩ <;> (try cases f) <;>
    try (simp [updateSurvivorInventory, Db.fault, Db.advance, hid] at h ⊢; done)
  all_goals rcases fl with _ | ⟨f, fl⟩ <;> (try cases f) <;>
    try (simp [updateSurvivorInventory, Db.fault, Db.advance, hid] at h ⊢; done)
  all_goals rcases fl with _ | ⟨f, fl⟩ <;> (try cases f) <;>
    try (simp [updateSurvivorInventory, Db.fault, Db.advance, hid] at h ⊢; done)
  all_goals rcases fl with _ | ⟨f, fl⟩ <;> (try cases f) <;>
    try (simp [updateSurvivorInventory, Db.fault, Db.advance, hid] at h ⊢; done)
  all_goals rcases fl with _ | ⟨f, fl⟩ <;> (try cases f) <;>
    simp [updateSurvivorInventory, Db.fault, Db.advance, hid] at h ⊢

/-! ## Claims on the infection state machine -/

/-- C1. For a survivor that exists with `contaminationReports = 0` and
`infected = false`, any number of report requests can be answered `204` in a
row; after exactly 3 of them `checkSurvivorInfectionStatus` returns `true`
without error, after fewer than 3 it returns `false` without error. -/
theorem report_threshold_status (db : Db) (p : String) (sid : Int)
    (hp : atoi p = some sid) (hr : db.store.reports? sid = some 0)
    (hi : db.store.infected? sid = some false) :
    (∀ n : Nat, (submitReports p (List.replicate n []) db).isSome = true) ∧
    ∀ (fss : List (List Bool)) (db' : Db), submitReports p fss db = some db' →
      (fss.length = 3 →
        (checkSurvivorInfectionStatus { db' with faults := [] } sid).2 = (true, none)) ∧
      (fss.length < 3 →
        (checkSurvivorInfectionStatus { db' with faults := [] } sid).2 = (false, none)) := by
  refine ⟨fun n => submitReports_faultFree p sid hp n db 0 hr, ?_⟩
  intro fss db' h
  have hrow := (submitReports_row p sid hp fss db db' 0 false hr hi (by omega) h).2
  obtain ⟨r, hs, hb⟩ := infected?_some hrow
  constructor
  · intro hl
    simp [checkSurvivorInfectionStatus, Db.fault, Db.advance, hs, hb, hl]
  · intro hl
    have : ¬ ((fss.length : Int) ≥ 3) := by omega
    simp [checkSurvivorInfectionStatus, Db.fault, Db.advance, hs, hb]
    omega

/-- Witness of C1: survivor 42 with no report and no infection is read as
infected after three report requests answered `204`. -/
theorem report_threshold_status_witness :
    atoi "42" = some 42 ∧
    ∃ db', submitReports "42" [[], [], []] (sampleDb [sampleSurvivor 42 false 0] [] [])
        = some db' ∧
      (checkSurvivorInfectionStatus { db' with faults := [] } 42).2 = (true, none) :=
  ⟨by decide, _, rfl,
    ((report_threshold_status (sampleDb [sampleSurvivor 42 false 0] [] []) "42" 42
      (by decide) (by decide) (by decide)).2 [[], [], []] _ rfl).1 rfl⟩

/-- C2. One report request answered `204` for an existing survivor with
counter `r` and flag `b` leaves the counter at `r + 1` and the flag at `true`
when `r + 1 >= 3`, at `b` otherwise. -/
theorem report_increments_by_one (db : Db) (p : String) (sid r : Int) (b : Bool)
    (hp : atoi p = some sid) (hr : db.store.reports? sid = some r)
    (hb : db.store.infected? sid = some b)
    (hok : (submitInfectionReportHandler db p).2.status = 204) :
    (submitInfectionReportHandler db p).1.store.reports? sid = some (r + 1) ∧
    (submitInfectionReportHandler db p).1.store.infected? sid
      = some (if r + 1 ≥ 3 then true else b) :=
  submit_noContent_row db p sid r b hp hr hb hok

/-- Witness of C2, the scenario of survivor 42 with two reports: the request
is answered `204`, the counter is 3 and the survivor is infected. -/
theorem report_increments_by_one_witness :
    (submitInfectionReportHandler (sampleDb [sampleSurvivor 42 false 2] [] []) "42").2.status
      = 204 ∧
    (submitInfectionReportHandler (sampleDb [sampleSurvivor 42 false 2] [] []) "42").1.store.reports?
      42 = some 3 ∧
    (submitInfectionReportHandler (sampleDb [sampleSurvivor 42 false 2] [] []) "42").1.store.infected?
      42 = some true :=
  ⟨by decide, report_increments_by_one (sampleDb [sampleSurvivor 42 false 2] [] []) "42" 42 2 false
    (by decide) (by decide) (by decide) (by decide)⟩

/-- C3. Infection is terminal: a survivor read as infected is still read as
infected after any operation of the engine, on any survivor id, under any
schedule of storage faults. -/
theorem infection_is_terminal (db : Db) (op : EngineOp) (sid : Int)
    (h : db.store.infected? sid = some true) :
    (op.run db).store.infected? sid = some true := by
  cases op with
  | submitInfectionReportHandler p =>
    exact (kept_submitInfectionReportHandler db p).infected sid h
  | flagSurvivorAsInfectedHandler p =>
    exact (kept_flagSurvivorAsInfectedHandler db p).infected sid h
  | flagSurvivorAsInfected x => exact (kept_flagSurvivorAsInfected db x).infected sid h
  | incrementContaminationReports x =>
    exact (kept_incrementContaminationReports db x).infected sid h
  | updateSurvivorInventory x inv =>
    exact (kept_updateSurvivorInventory db x inv).infected sid h
  | updateSurvivorLocation x loc =>
    exact (kept_updateSurvivorLocation db x loc).infected sid h

/-- Witness of C3: an inventory update on the infected survivor 7. -/
theorem infection_is_terminal_witness :
    (sampleDb [sampleSurvivor 7 true 3] [] []).store.infected? 7 = some true ∧
    ((EngineOp.updateSurvivorInventory 7 samplePayload).run
      (sampleDb [sampleSurvivor 7 true 3] [] [])).store.infected? 7 = some true :=
  ⟨by decide, infection_is_terminal (sampleDb [sampleSurvivor 7 true 3] [] [])
    (EngineOp.updateSurvivorInventory 7 samplePayload) 7 (by decide)⟩

/-- C4. For a survivor that exists with `infected = true`, the explicit
flag endpoint responds `400 "Survivor is already infected"` as soon as the
store answers the status read, and under every fault schedule it mutates
nothing: the tables and key generators are those before the request. -/
theorem flag_endpoint_conflict (db : Db) (p : String) (sid : Int)
    (hp : atoi p = some sid) (hi : db.store.infected? sid = some true) :
    (db.fault = false → (flagSurvivorAsInfectedHandler db p).2
      = { status := 400, body := some ("error", "Survivor is already infected") }) ∧
    (flagSurvivorAsInfectedHandler db p).1.store = db.store ∧
    (flagSurvivorAsInfectedHandler db p).1.store.reports? sid = db.store.reports? sid ∧
    (flagSurvivorAsInfectedHandler db p).1.store.infected? sid = some true ∧
    (flagSurvivorAsInfectedHandler db p).1.nextSurvivorId = db.nextSurvivorId ∧
    (flagSurvivorAsInfectedHandler db p).1.nextInventoryId = db.nextInventoryId := by
  obtain ⟨r, hs, hb⟩ := infected?_some hi
  cases hf : db.fault with
  | false =>
    have hres : flagSurvivorAsInfectedHandler db p
        = (db.advance, errorResponse 400 "Survivor is already infected") := by
      simp [flagSurvivorAsInfectedHandler, hp, checkSurvivorInfectionStatus, hf, hs, hb]
    rw [hres]
    exact ⟨fun _ => rfl, rfl, rfl, hi, rfl, rfl⟩
  | true =>
    have hres : flagSurvivorAsInfectedHandler db p
        = (db.advance, errorResponse 500 "Failed to check survivor infection status") := by
      simp [flagSurvivorAsInfectedHandler, hp, checkSurvivorInfectionStatus, hf]
    rw [hres]
    exact ⟨fun h => Bool.noConfusion h, rfl, rfl, hi, rfl, rfl⟩

/-- Witness of C4, the scenario of the infected survivor 7. -/
theorem flag_endpoint_conflict_witness :
    (sampleDb [sampleSurvivor 7 true 3] [] []).store.infected? 7 = some true ∧
    (flagSurvivorAsInfectedHandler (sampleDb [sampleSurvivor 7 true 3] [] []) "7").2
      = { status := 400, body := some ("error", "Survivor is already infected") } ∧
    (flagSurvivorAsInfectedHandler (sampleDb [sampleSurvivor 7 true 3] [] []) "7").1.store.reports? 7
      = some 3 :=
  have h := flag_endpoint_conflict (sampleDb [sampleSurvivor 7 true 3] [] []) "7" 7
    (by decide) (by decide)
  ⟨by decide, h.1 (by decide), h.2.2.1.trans (by decide)⟩

/-- C5, as stated, fails: with no row for survivor 5,
`incrementContaminationReports` returns no error, and the report endpoint
answers with the server error 500, not with a client error. -/
theorem report_absent_not_client_error :
    (sampleDb [sampleSurvivor 1 false 0] [] []).store.survivor? 5 = none ∧
    (incrementContaminationReports (sampleDb [sampleSurvivor 1 false 0] [] []) 5).2 = none ∧
    (submitInfectionReportHandler (sampleDb [sampleSurvivor 1 false 0] [] []) "5").2
      = { status := 500, body := some ("error", "Failed to check contamination threshold") } := by
  refine ⟨?_, ?_, ?_⟩
  · rfl
  · decide
  · decide

/-- C5, amended. For a survivor id without a row,
`incrementContaminationReports` returns an error only on a storage fault and
changes no table; the report endpoint changes no table either and answers 500
in every case, with `"Failed to check contamination threshold"` (the
`sql.ErrNoRows` of the counter read) when no statement faults. -/
theorem report_absent_server_error (db : Db) (p : String) (sid : Int)
    (hp : atoi p = some sid) (habs : db.store.survivor? sid = none) :
    (incrementContaminationReports db sid).1.store = db.store ∧
    (db.fault = false → (incrementContaminationReports db sid).2 = none) ∧
    (submitInfectionReportHandler db p).1.store = db.store ∧
    (submitInfectionReportHandler db p).2.status = 500 ∧
    (db.fault = false → db.advance.fault = false →
      (submitInfectionReportHandler db p).2
        = { status := 500, body := some ("error", "Failed to check contamination threshold") }) := by
  have hadd := addReport_absent db.store sid habs
  rcases db with ⟨s, a, b, fl⟩
  simp only at habs hadd
  rcases fl with _ | ⟨f0, _ | ⟨f1, fl⟩⟩
  all_goals (try cases f0) <;> (try cases f1)
  all_goals simp [submitInfectionReportHandler, hp, incrementContaminationReports,
      checkContaminationThreshold, Db.fault, Db.advance, errorResponse, habs, hadd]

/-- Witness of C5 amended: survivor 5 is absent from the table. -/
theorem report_absent_server_error_witness :
    (sampleDb [sampleSurvivor 1 false 0] [] []).store.survivor? 5 = none ∧
    (submitInfectionReportHandler (sampleDb [sampleSurvivor 1 false 0] [] []) "5").2.status
      = 500 :=
  ⟨rfl, (report_absent_server_error (sampleDb [sampleSurvivor 1 false 0] [] []) "5" 5
    (by decide) rfl).2.2.2.1⟩

/-- C10. `flagSurvivorAsInfected` is idempotent: on an existing survivor, when
the store executes both statements, the first call returns no error and sets
`infected = true`, and the second call returns no error and leaves the tables
and key generators as the first call left them. -/
theorem flag_idempotent (db : Db) (sid : Int) (r : SurvivorRow)
    (hs : db.store.survivor? sid = some r)
    (hf1 : db.fault = false) (hf2 : db.advance.fault = false) :
    (flagSurvivorAsInfected db sid).2 = none ∧
    (flagSurvivorAsInfected db sid).1.store.infected? sid = some true ∧
    (flagSurvivorAsInfected (flagSurvivorAsInfected db sid).1 sid).2 = none ∧
    (flagSurvivorAsInfected (flagSurvivorAsInfected db sid).1 sid).1.store
      = (flagSurvivorAsInfected db sid).1.store ∧
    (flagSurvivorAsInfected (flagSurvivorAsInfected db sid).1 sid).1.store.infected? sid
      = some true ∧
    (flagSurvivorAsInfected (flagSurvivorAsInfected db sid).1 sid).1.nextSurvivorId
      = (flagSurvivorAsInfected db sid).1.nextSurvivorId ∧
    (flagSurvivorAsInfected (flagSurvivorAsInfected db sid).1 sid).1.nextInventoryId
      = (flagSurvivorAsInfected db sid).1.nextInventoryId := by
  have hi : (db.store.setInfected sid).infected? sid = some true := by
    simp [Store.infected?, survivor?_setInfected, hs]
  rcases db with ⟨s, a, b, fl⟩
  simp only at hi
  rcases fl with _ | ⟨f0, _ | ⟨f1, fl⟩⟩
  all_goals (try cases f0) <;> (try cases f1)
  all_goals simp [Db.fault, Db.advance] at hf1 hf2
  all_goals simp [flagSurvivorAsInfected, Db.fault, Db.advance, setInfected_idem, hi]

/-- Witness of C10: survivor 4, not yet infected. -/
theorem flag_idempotent_witness :
    (flagSurvivorAsInfected (sampleDb [sampleSurvivor 4 false 1] [] []) 4).2 = none ∧
    (flagSurvivorAsInfected
      (flagSurvivorAsInfected (sampleDb [sampleSurvivor 4 false 1] [] []) 4).1 4).1.store
      = (flagSurvivorAsInfected (sampleDb [sampleSurvivor 4 false 1] [] []) 4).1.store :=
  have h := flag_idempotent (sampleDb [sampleSurvivor 4 false 1] [] []) 4
    (sampleSurvivor 4 false 1) rfl (by decide) (by decide)
  ⟨h.1, h.2.2.2.1⟩

/-! ## Claims on the inventory ledger -/

/-- C6, as stated, fails: survivor 9 has two inventory records, the call
returns no error under no storage fault, and two records remain, the second
one with its old values. -/
theorem upsert_keeps_duplicates :
    (updateSurvivorInventory (sampleDb [sampleSurvivor 9 false 0]
        [sampleInventoryRow 1 9 "high", sampleInventoryRow 2 9 "high"] []) 9 samplePayload).2
      = none ∧
    (updateSurvivorInventory (sampleDb [sampleSurvivor 9 false 0]
        [sampleInventoryRow 1 9 "high", sampleInventoryRow 2 9 "high"] []) 9
        samplePayload).1.store.inventoryCount 9 = 2 ∧
    (updateSurvivorInventory (sampleDb [sampleSurvivor 9 false 0]
        [sampleInventoryRow 1 9 "high", sampleInventoryRow 2 9 "high"] []) 9
        samplePayload).1.store.inventory
      = [{ id := 1, survivorId := 9, water := "low", food := "none", medication := "none",
           ammunition := "low" }, sampleInventoryRow 2 9 "high"] := by
  refine ⟨?_, ?_, ?_⟩ <;> decide

/-- C6, amended. When the survivor has at most one inventory record before the
call, and the call returns no error after the store answered the read of the
existing inventory id (with a row or with no row), then exactly one inventory
record exists for the survivor, it holds the payload, every survivor row of
that id holds the payload in its denormalized fields, and when there was no
record before, the inventory table is the old one followed by one new row
with the payload. -/
theorem upsert_single_record (db : Db) (sid : Int) (inv : Inventory)
    (hc : db.store.inventoryCount sid ≤ 1)
    (hok : (updateSurvivorInventory db sid inv).2 = none)
    (hread : db.advance.advance.advance.fault = false) :
    (updateSurvivorInventory db sid inv).1.store.inventoryCount sid = 1 ∧
    (∀ r ∈ (updateSurvivorInventory db sid inv).1.store.inventory,
      r.survivorId = sid → r.levels = inv) ∧
    (∀ r ∈ (updateSurvivorInventory db sid inv).1.store.survivors,
      r.id = sid → r.levels = inv) ∧
    (db.store.inventoryCount sid = 0 →
      (updateSurvivorInventory db sid inv).1.store.inventory = db.store.inventory ++
        [{ id := db.nextInventoryId, survivorId := sid, water := inv.water, food := inv.food,
           medication := inv.medication, ammunition := inv.ammunition }]) := by
  rw [updateSurvivorInventory_commit db sid inv hok hread]
  exact upserted_spec db sid inv hc

/-- Witness of C6 amended, the scenario of survivor 9 without inventory row. -/
theorem upsert_single_record_witness :
    (sampleDb [sampleSurvivor 9 false 0] [] []).store.inventoryCount 9 = 0 ∧
    (updateSurvivorInventory (sampleDb [sampleSurvivor 9 false 0] [] []) 9 samplePayload).2
      = none ∧
    (updateSurvivorInventory (sampleDb [sampleSurvivor 9 false 0] [] []) 9
      samplePayload).1.store.inventoryCount 9 = 1 ∧
    (updateSurvivorInventory (sampleDb [sampleSurvivor 9 false 0] [] []) 9
      samplePayload).1.store.inventory
      = [{ id := 100, survivorId := 9, water := "low", food := "none", medication := "none",
           ammunition := "low" }] :=
  have h := upsert_single_record (sampleDb [sampleSurvivor 9 false 0] [] []) 9 samplePayload
    (by decide) (by decide) (by decide)
  ⟨by decide, by decide, h.1, h.2.2.2 (by decide)⟩

/-- C7. `updateSurvivorInventory` is all-or-nothing: when a storage fault hits
a statement of the transaction, whichever it is (begin, prepare or exec of the
survivor-row update, the read of the inventory id, prepare or exec of the
insert or update of the inventory row, commit), the call returns an error and
the committed tables, survivors and inventory, are those before the call. -/
theorem upsert_all_or_nothing (db : Db) (sid : Int) (inv : Inventory)
    (h : db.fault = true ∨ db.advance.fault = true ∨ db.advance.advance.fault = true ∨
      db.advance.advance.advance.fault = true ∨
      db.advance.advance.advance.advance.fault = true ∨
      db.advance.advance.advance.advance.advance.fault = true ∨
      db.advance.advance.advance.advance.advance.advance.fault = true) :
    (updateSurvivorInventory db sid inv).2 = some DbError.storage ∧
    (updateSurvivorInventory db sid inv).1.store = db.store ∧
    (updateSurvivorInventory db sid inv).1.store.survivors = db.store.survivors ∧
    (updateSurvivorInventory db sid inv).1.store.inventory = db.store.inventory := by
  have hab := updateSurvivorInventory_fault_aborts db sid inv h
  refine ⟨hab.1, hab.2, ?_, ?_⟩
  · rw [hab.2]
  · rw [hab.2]

/-- Witness of C7: the read of the inventory id of survivor 3 hits a storage
fault after three statements that succeeded; the call returns an error and the
one inventory record is as before. -/
theorem upsert_all_or_nothing_witness :
    (updateSurvivorInventory (sampleDb [sampleSurvivor 3 false 0]
        [sampleInventoryRow 1 3 "high"] [false, false, false, true]) 3 samplePayload).2
      = some DbError.storage ∧
    (updateSurvivorInventory (sampleDb [sampleSurvivor 3 false 0]
        [sampleInventoryRow 1 3 "high"] [false, false, false, true]) 3
        samplePayload).1.store.inventory = [sampleInventoryRow 1 3 "high"] :=
  have h := upsert_all_or_nothing (sampleDb [sampleSurvivor 3 false 0]
    [sampleInventoryRow 1 3 "high"] [false, false, false, true]) 3 samplePayload
    (Or.inr (Or.inr (Or.inr (Or.inl (by decide)))))
  ⟨h.1, h.2.2.2⟩

/-- C9, as stated, fails twice over.  With two inventory records for survivor
2, two calls return no error under no storage fault and two records remain
after each.  And when the key the store generates next (100) is already the
id of a record of survivor 8, the first call for survivor 9 inserts a record
with that id and the second call rewrites both records of id 100: two calls do
not leave the tables one call leaves. -/
theorem upsert_not_idempotent_everywhere :
    ((updateSurvivorInventory (sampleDb [sampleSurvivor 2 false 0]
        [sampleInventoryRow 1 2 "high", sampleInventoryRow 2 2 "high"] []) 2 samplePayload).2
      = none ∧
     (updateSurvivorInventory (sampleDb [sampleSurvivor 2 false 0]
        [sampleInventoryRow 1 2 "high", sampleInventoryRow 2 2 "high"] []) 2
        samplePayload).1.store.inventoryCount 2 = 2 ∧
     (updateSurvivorInventory (updateSurvivorInventory (sampleDb [sampleSurvivor 2 false 0]
        [sampleInventoryRow 1 2 "high", sampleInventoryRow 2 2 "high"] []) 2 samplePayload).1 2
        samplePayload).2 = none ∧
     (updateSurvivorInventory (updateSurvivorInventory (sampleDb [sampleSurvivor 2 false 0]
        [sampleInventoryRow 1 2 "high", sampleInventoryRow 2 2 "high"] []) 2 samplePayload).1 2
        samplePayload).1.store.inventoryCount 2 = 2) ∧
    ((updateSurvivorInventory (sampleDb [sampleSurvivor 8 false 0, sampleSurvivor 9 false 0]
        [sampleInventoryRow 100 8 "high"] []) 9 samplePayload).2 = none ∧
     (updateSurvivorInventory (updateSurvivorInventory
        (sampleDb [sampleSurvivor 8 false 0, sampleSurvivor 9 false 0]
          [sampleInventoryRow 100 8 "high"] []) 9 samplePayload).1 9 samplePayload).2 = none ∧
     (updateSurvivorInventory (updateSurvivorInventory
        (sampleDb [sampleSurvivor 8 false 0, sampleSurvivor 9 false 0]
          [sampleInventoryRow 100 8 "high"] []) 9 samplePayload).1 9
        samplePayload).1.store.inventory
      ≠ (updateSurvivorInventory (sampleDb [sampleSurvivor 8 false 0, sampleSurvivor 9 false 0]
        [sampleInventoryRow 100 8 "high"] []) 9 samplePayload).1.store.inventory) := by
  refine ⟨⟨?_, ?_, ?_, ?_⟩, ?_, ?_, ?_⟩ <;> decide

/-- C9, amended. When the survivor has at most one inventory record, the key
the store generates next is not the id of an existing record, and two
successive calls with the same payload each return no error after the store
answered the read of the existing inventory id, then the second call leaves
the tables and the key generators exactly as the first call left them, and
after each call the survivor has exactly one inventory record, holding the
payload. -/
theorem upsert_idempotent (db : Db) (sid : Int) (inv : Inventory)
    (hc : db.store.inventoryCount sid ≤ 1)
    (hfresh : ∀ r ∈ db.store.inventory, r.id ≠ db.nextInventoryId)
    (hok1 : (updateSurvivorInventory db sid inv).2 = none)
    (hread1 : db.advance.advance.advance.fault = false)
    (hok2 : (updateSurvivorInventory (updateSurvivorInventory db sid inv).1 sid inv).2 = none)
    (hread2 : (updateSurvivorInventory db sid inv).1.advance.advance.advance.fault = false) :
    (updateSurvivorInventory (updateSurvivorInventory db sid inv).1 sid inv).1.store
      = (updateSurvivorInventory db sid inv).1.store ∧
    (updateSurvivorInventory db sid inv).1.store.inventoryCount sid = 1 ∧
    (updateSurvivorInventory (updateSurvivorInventory db sid inv).1 sid inv).1.store.inventoryCount
      sid = 1 ∧
    (∀ r ∈ (updateSurvivorInventory db sid inv).1.store.inventory,
      r.survivorId = sid → r.levels = inv) ∧
    (∀ r ∈ (updateSurvivorInventory (updateSurvivorInventory db sid inv).1 sid inv).1.store.inventory,
      r.survivorId = sid → r.levels = inv) := by
  have h1 := updateSurvivorInventory_commit db sid inv hok1 hread1
  have h2 := updateSurvivorInventory_commit _ sid inv hok2 hread2
  have hsame := upserted_again db (updateSurvivorInventory db sid inv).1 sid inv h1 hfresh
  have hspec := upserted_spec db sid inv hc
  rw [h2, hsame, h1]
  exact ⟨rfl, hspec.1, hspec.1, hspec.2.1, hspec.2.1⟩

/-- Witness of C9 amended: survivor 9 with one inventory record, updated
twice with the same payload. -/
theorem upsert_idempotent_witness :
    (updateSurvivorInventory (sampleDb [sampleSurvivor 9 false 0]
        [sampleInventoryRow 1 9 "high"] []) 9 samplePayload).2 = none ∧
    (updateSurvivorInventory (updateSurvivorInventory (sampleDb [sampleSurvivor 9 false 0]
        [sampleInventoryRow 1 9 "high"] []) 9 samplePayload).1 9 samplePayload).2 = none ∧
    (updateSurvivorInventory (updateSurvivorInventory (sampleDb [sampleSurvivor 9 false 0]
        [sampleInventoryRow 1 9 "high"] []) 9 samplePayload).1 9 samplePayload).1.store
      = (updateSurvivorInventory (sampleDb [sampleSurvivor 9 false 0]
        [sampleInventoryRow 1 9 "high"] []) 9 samplePayload).1.store ∧
    (updateSurvivorInventory (updateSurvivorInventory (sampleDb [sampleSurvivor 9 false 0]
        [sampleInventoryRow 1 9 "high"] []) 9 samplePayload).1 9
        samplePayload).1.store.inventoryCount 9 = 1 :=
  have h := upsert_idempotent (sampleDb [sampleSurvivor 9 false 0]
    [sampleInventoryRow 1 9 "high"] []) 9 samplePayload
    (by decide) (by decide) (by decide) (by decide) (by decide) (by decide)
  ⟨by decide, by decide, h.1, h.2.2.1⟩

/-! ## Claim on registration -/

/-- C11, as stated, fails: a body with `infected = true` is accepted with
`201 Created`, and the survivor row created for it (id 100) has
`infected = true`. -/
theorem register_keeps_infected_flag :
    (registerSurvivorHandler sampleDefaults (sampleRegistry [] []) (some (sampleBody true))).2.status
      = 201 ∧
    ((registerSurvivorHandler sampleDefaults (sampleRegistry [] [])
        (some (sampleBody true))).1.store.survivors.map
      fun r => (r.id, r.infected, r.contaminationReports)) = [(100, true, 0)] := by
  constructor <;> decide

/-- C11, amended. For every registration body accepted by
`registerSurvivorHandler`, the survivors table gains exactly one row; that row
carries the id returned in the reply, its `infected` column is the `infected`
field of the body, also when that field is `true`, and its
`contamination_reports` column, which the `INSERT` does not name, holds the
default of the column. -/
theorem register_row (defaults : SurvivorDefaults) (db : Db) (body v : Survivor)
    (h : (registerSurvivorHandler defaults db (some body)).2 = RegisterReply.created v) :
    ∃ row : SurvivorRow,
      (registerSurvivorHandler defaults db (some body)).1.store.survivors
        = db.store.survivors ++ [row] ∧
      row.id = v.id ∧ row.infected = body.infected ∧ v.infected = body.infected ∧
      row.contaminationReports = defaults.contaminationReports := by
  rcases db with ⟨s, a, b, fl⟩
  cases hl : s.locationId? body.location with
  | none =>
    exfalso
    rcases fl with _ | ⟨f0, fl⟩
    all_goals (try cases f0)
    all_goals simp [registerSurvivorHandler, Db.fault, Db.advance, hl] at h
  | some lid =>
    cases lid with
    | none =>
      exfalso
      rcases fl with _ | ⟨f0, fl⟩
      all_goals (try cases f0)
      all_goals simp [registerSurvivorHandler, Db.fault, Db.advance, hl,
        insertedSurvivorRow] at h
    | some l =>
      refine ⟨insertedSurvivorRow defaults a (some l) body, ?_⟩
      rcases fl with _ | ⟨f0, _ | ⟨f1, fl⟩⟩
      all_goals (try cases f0) <;> (try cases f1)
      all_goals simp [registerSurvivorHandler, Db.fault, Db.advance, hl,
        insertedSurvivorRow, Store.insertInventory] at h ⊢
      all_goals subst h
      all_goals simp

/-- Witness of C11 amended: a body with `infected = false` is accepted and its
row is not infected. -/
theorem register_row_witness :
    (registerSurvivorHandler sampleDefaults (sampleRegistry [] []) (some (sampleBody false))).2
      = RegisterReply.created { sampleBody false with id := 100, locationID := 4 } ∧
    ∃ row : SurvivorRow,
      (registerSurvivorHandler sampleDefaults (sampleRegistry [] [])
        (some (sampleBody false))).1.store.survivors = [] ++ [row] ∧
      row.id = 100 ∧ row.infected = false ∧ (sampleBody false).infected = false ∧
      row.contaminationReports = 0 :=
  ⟨by decide, register_row sampleDefaults (sampleRegistry [] []) (sampleBody false)
    { sampleBody false with id := 100, locationID := 4 } (by decide)⟩

/-! ## Fault-free requests to the two infection endpoints -/

theorem survivor?_addReport_any (s : Store) (x sid : Int) :
    (s.addReport x).survivor? sid
      = (s.survivor? sid).map fun r =>
          if r.id = x then { r with contaminationReports := r.contaminationReports + 1 } else r := by
  unfold Store.addReport Store.survivor?
  exact find?_map_sameId _ (fun r => by by_cases h : r.id = x <;> simp [h]) _ _

theorem survivor?_setInfected_any (s : Store) (x sid : Int) :
    (s.setInfected x).survivor? sid
      = (s.survivor? sid).map fun r =>
          if r.id = x then { r with infected := true } else r := by
  unfold Store.setInfected Store.survivor?
  exact find?_map_sameId _ (fun r => by by_cases h : r.id = x <;> simp [h]) _ _

/-- Reading a survivor back from the tables a report left. -/
theorem survivor?_reported (s : Store) (x sid : Int) (r : SurvivorRow) :
    (reported s x r).survivor? sid
      = (s.survivor? sid).map fun q =>
          if q.id = x then
            { q with contaminationReports := q.contaminationReports + 1,
                     infected := if r.contaminationReports + 1 ≥ 3 then true else q.infected }
          else q := by
  unfold reported
  by_cases hr : r.contaminationReports + 1 ≥ 3
  · simp only [hr, if_true, survivor?_setInfected_any, survivor?_addReport_any, Option.map_map]
    congr 1
    funext q
    by_cases hq : q.id = x <;> simp [hq]
  · simp only [hr, if_false, survivor?_addReport_any]

/-- A fault-free report request on an existing survivor is answered `204` and
leaves the tables `reported`, the key generators untouched. -/
theorem submit_of_faultFree (db : Db) (p : String) (sid : Int) (r : SurvivorRow)
    (hp : atoi p = some sid) (hs : db.store.survivor? sid = some r) (hf : db.faultFree) :
    (submitInfectionReportHandler db p).2 = noContent ∧
    (submitInfectionReportHandler db p).1.store = reported db.store sid r ∧
    (submitInfectionReportHandler db p).1.nextSurvivorId = db.nextSurvivorId ∧
    (submitInfectionReportHandler db p).1.nextInventoryId = db.nextInventoryId := by
  rcases db with ⟨s, a, b, fl⟩
  simp only at hs
  by_cases hr : 3 ≤ r.contaminationReports + 1
  all_goals rcases fl with _ | ⟨f0, _ | ⟨f1, _ | ⟨f2, fl⟩⟩⟩
  all_goals (try cases f0) <;> (try cases f1) <;> (try cases f2)
  all_goals simp [Db.faultFree] at hf
  all_goals simp [submitInfectionReportHandler, hp, incrementContaminationReports,
      checkContaminationThreshold, flagSurvivorAsInfected, Db.fault, Db.advance,
      survivor?_addReport, errorResponse, noContent, hs, hr, reported]

/-- A fault-free request to the flag endpoint on an existing survivor that is
not infected does what the report request does. -/
theorem flag_of_faultFree (db : Db) (p : String) (sid : Int) (r : SurvivorRow)
    (hp : atoi p = some sid) (hs : db.store.survivor? sid = some r)
    (hi : r.infected = false) (hf : db.faultFree) :
    (flagSurvivorAsInfectedHandler db p).2 = noContent ∧
    (flagSurvivorAsInfectedHandler db p).1.store = reported db.store sid r ∧
    (flagSurvivorAsInfectedHandler db p).1.nextSurvivorId = db.nextSurvivorId ∧
    (flagSurvivorAsInfectedHandler db p).1.nextInventoryId = db.nextInventoryId := by
  rcases db with ⟨s, a, b, fl⟩
  simp only at hs
  by_cases hr : 3 ≤ r.contaminationReports + 1
  all_goals rcases fl with _ | ⟨f0, _ | ⟨f1, _ | ⟨f2, _ | ⟨f3, fl⟩⟩⟩⟩
  all_goals (try cases f0) <;> (try cases f1) <;> (try cases f2) <;> (try cases f3)
  all_goals simp [Db.faultFree] at hf
  all_goals simp [flagSurvivorAsInfectedHandler, hp, checkSurvivorInfectionStatus,
      incrementContaminationReports,
      checkContaminationThreshold, flagSurvivorAsInfected, Db.fault, Db.advance,
      survivor?_addReport, errorResponse, noContent, hs, hi, hr, reported]

/-- The tables after a fault-free report request: untouched, or `reported` for
the row the request found. -/
theorem submit_store_of_faultFree (db : Db) (p : String) (hf : db.faultFree) :
    (submitInfectionReportHandler db p).1.store = db.store ∨
    ∃ sid r, db.store.survivor? sid = some r ∧
      (submitInfectionReportHandler db p).1.store = reported db.store sid r := by
  cases hp : atoi p with
  | none => left; simp [submitInfectionReportHandler, hp]
  | some sid =>
    cases hs : db.store.survivor? sid with
    | none =>
      left
      have hadd := addReport_absent db.store sid hs
      rcases db with ⟨s, a, b, fl⟩
      simp only at hs hadd
      rcases fl with _ | ⟨f0, _ | ⟨f1, fl⟩⟩
      all_goals (try cases f0) <;> (try cases f1)
      all_goals simp [submitInfectionReportHandler, hp, incrementContaminationReports,
        checkContaminationThreshold, Db.fault, Db.advance, errorResponse, hs, hadd]
    | some r => exact Or.inr ⟨sid, r, hs, (submit_of_faultFree db p sid r hp hs hf).2.1⟩

/-- The tables after a fault-free request to the flag endpoint: untouched, or
`reported` for the row the request found. -/
theorem flag_store_of_faultFree (db : Db) (p : String) (hf : db.faultFree) :
    (flagSurvivorAsInfectedHandler db p).1.store = db.store ∨
    ∃ sid r, db.store.survivor? sid = some r ∧
      (flagSurvivorAsInfectedHandler db p).1.store = reported db.store sid r := by
  cases hp : atoi p with
  | none => left; simp [flagSurvivorAsInfectedHandler, hp]
  | some sid =>
    cases hs : db.store.survivor? sid with
    | none =>
      left
      rcases db with ⟨s, a, b, fl⟩
      simp only at hs
      rcases fl with _ | ⟨f0, fl⟩
      all_goals (try cases f0)
      all_goals simp [flagSurvivorAsInfectedHandler, hp, checkSurvivorInfectionStatus,
        Db.fault, Db.advance, errorResponse, hs]
    | some r =>
      cases hi : r.infected with
      | false => exact Or.inr ⟨sid, r, hs, (flag_of_faultFree db p sid r hp hs hi hf).2.1⟩
      | true =>
        left
        rcases db with ⟨s, a, b, fl⟩
        simp only at hs
        rcases fl with _ | ⟨f0, fl⟩
        all_goals (try cases f0)
        all_goals simp [flagSurvivorAsInfectedHandler, hp, checkSurvivorInfectionStatus,
          Db.fault, Db.advance, errorResponse, hs, hi]

theorem reported_survivors (s : Store) (x : Int) (r : SurvivorRow) :
    (reported s x r).survivors
      = s.survivors.map fun q =>
          if q.id = x then
            { q with contaminationReports := q.contaminationReports + 1,
                     infected := if r.contaminationReports + 1 ≥ 3 then true else q.infected }
          else q := by
  unfold reported
  by_cases hr : r.contaminationReports + 1 ≥ 3
  · simp only [hr, if_true, Store.setInfected, Store.addReport, List.map_map]
    apply List.map_congr_left
    intro q _
    by_cases hq : q.id = x <;> simp [hq]
  · simp only [hr, if_false, Store.addReport]

theorem thresholdFlagged_reported (s : Store) (sid : Int) (r : SurvivorRow)
    (hs : s.survivor? sid = some r) (h : s.thresholdFlagged) :
    (reported s sid r).thresholdFlagged := by
  intro sid' k hk hk3
  unfold Store.reports? at hk
  unfold Store.infected?
  rw [survivor?_reported] at hk ⊢
  cases hq : s.survivor? sid' with
  | none => simp [hq] at hk
  | some q =>
    have hqid := survivor?_id hq
    by_cases hx : q.id = sid
    · have hsid : sid' = sid := by rw [← hqid, hx]
      subst hsid
      have hqr : r = q := by
        rw [hs] at hq
        exact Option.some.inj hq
      subst hqr
      simp only [hs, Option.map_some', if_pos hx] at hk ⊢
      have hk1 : r.contaminationReports + 1 = k := Option.some.inj hk
      have hge : r.contaminationReports + 1 ≥ 3 := by omega
      simp only [if_pos hge]
    · simp [hq, hx] at hk ⊢
      have := h sid' k (by simp [Store.reports?, hq, hk]) hk3
      simpa [Store.infected?, hq] using this

theorem rowsFlagged_reported (s : Store) (sid : Int) (r : SurvivorRow)
    (hs : s.survivor? sid = some r) (hn : (s.survivors.map fun q => q.id).Nodup)
    (h : s.rowsFlagged) : (reported s sid r).rowsFlagged := by
  intro q' hq' hk3
  rw [reported_survivors, List.mem_map] at hq'
  obtain ⟨q, hq, rfl⟩ := hq'
  by_cases hx : q.id = sid
  · have hr : r ∈ s.survivors := List.mem_of_find?_eq_some hs
    have hrid : r.id = sid := survivor?_id hs
    have hqr : q = r := List.inj_on_of_nodup_map hn hq hr (by simp [hx, hrid])
    subst hqr
    simp [hx] at hk3 ⊢
    omega
  · simp [hx] at hk3 ⊢
    exact h q hq hk3

/-! ## Claims on the two infection endpoints -/

/-- C13. For an existing survivor with `infected = false`, the explicit flag
endpoint and the plain report endpoint, run from the same state with no
storage fault, are both answered `204 No Content` and leave the same tables
and key generators. -/
theorem flag_endpoint_equals_report (db : Db) (p : String) (sid : Int)
    (hp : atoi p = some sid) (hi : db.store.infected? sid = some false)
    (hf : db.faultFree) :
    (flagSurvivorAsInfectedHandler db p).1.store
      = (submitInfectionReportHandler db p).1.store ∧
    (flagSurvivorAsInfectedHandler db p).2 = { status := 204, body := none } ∧
    (submitInfectionReportHandler db p).2 = { status := 204, body := none } ∧
    (flagSurvivorAsInfectedHandler db p).1.nextSurvivorId
      = (submitInfectionReportHandler db p).1.nextSurvivorId ∧
    (flagSurvivorAsInfectedHandler db p).1.nextInventoryId
      = (submitInfectionReportHandler db p).1.nextInventoryId := by
  obtain ⟨r, hs, hb⟩ := infected?_some hi
  have h1 := flag_of_faultFree db p sid r hp hs hb hf
  have h2 := submit_of_faultFree db p sid r hp hs hf
  refine ⟨by rw [h1.2.1, h2.2.1], h1.1, h2.1, by rw [h1.2.2.1, h2.2.2.1],
    by rw [h1.2.2.2, h2.2.2.2]⟩

/-- Witness of C13: survivor 42 with two reports, reported through either
endpoint. -/
theorem flag_endpoint_equals_report_witness :
    (sampleDb [sampleSurvivor 42 false 2] [] []).store.infected? 42 = some false ∧
    (flagSurvivorAsInfectedHandler (sampleDb [sampleSurvivor 42 false 2] [] []) "42").1.store
      = (submitInfectionReportHandler (sampleDb [sampleSurvivor 42 false 2] [] []) "42").1.store ∧
    (flagSurvivorAsInfectedHandler (sampleDb [sampleSurvivor 42 false 2] [] []) "42").2.status
      = 204 ∧
    (flagSurvivorAsInfectedHandler (sampleDb [sampleSurvivor 42 false 2] [] [])
      "42").1.store.infected? 42 = some true :=
  have h := flag_endpoint_equals_report (sampleDb [sampleSurvivor 42 false 2] [] []) "42" 42
    (by decide) (by decide) (by unfold Db.faultFree; decide)
  ⟨by decide, h.1, by decide, by decide⟩

/-- C14. A fault-free request to the report endpoint or to the flag endpoint
preserves "3 reports or more implies infected": for the survivors as the
engine reads them by id, and, when ids are distinct, for every row of the
table. -/
theorem threshold_invariant_preserved (db : Db) (p : String) (hf : db.faultFree) :
    (db.store.thresholdFlagged →
      (submitInfectionReportHandler db p).1.store.thresholdFlagged ∧
      (flagSurvivorAsInfectedHandler db p).1.store.thresholdFlagged) ∧
    ((db.store.survivors.map fun q => q.id).Nodup → db.store.rowsFlagged →
      (submitInfectionReportHandler db p).1.store.rowsFlagged ∧
      (flagSurvivorAsInfectedHandler db p).1.store.rowsFlagged) := by
  have hsub := submit_store_of_faultFree db p hf
  have hflag := flag_store_of_faultFree db p hf
  constructor
  · intro h
    constructor
    · rcases hsub with e | ⟨sid, r, hs, e⟩
      · rw [e]; exact h
      · rw [e]; exact thresholdFlagged_reported _ sid r hs h
    · rcases hflag with e | ⟨sid, r, hs, e⟩
      · rw [e]; exact h
      · rw [e]; exact thresholdFlagged_reported _ sid r hs h
  · intro hn h
    constructor
    · rcases hsub with e | ⟨sid, r, hs, e⟩
      · rw [e]; exact h
      · rw [e]; exact rowsFlagged_reported _ sid r hs hn h
    · rcases hflag with e | ⟨sid, r, hs, e⟩
      · rw [e]; exact h
      · rw [e]; exact rowsFlagged_reported _ sid r hs hn h

/-- Witness of C14: survivor 42 with two reports and survivor 7, infected
with three; the third report on 42 keeps every row flagged. -/
theorem threshold_invariant_preserved_witness :
    (sampleDb [sampleSurvivor 42 false 2, sampleSurvivor 7 true 3] [] []).store.rowsFlagged ∧
    (submitInfectionReportHandler (sampleDb [sampleSurvivor 42 false 2, sampleSurvivor 7 true 3]
      [] []) "42").1.store.rowsFlagged ∧
    (flagSurvivorAsInfectedHandler (sampleDb [sampleSurvivor 42 false 2, sampleSurvivor 7 true 3]
      [] []) "42").1.store.rowsFlagged :=
  have h0 : (sampleDb [sampleSurvivor 42 false 2, sampleSurvivor 7 true 3]
      [] []).store.rowsFlagged := by
    unfold Store.rowsFlagged
    decide
  ⟨h0, (threshold_invariant_preserved (sampleDb [sampleSurvivor 42 false 2,
    sampleSurvivor 7 true 3] [] []) "42" (by unfold Db.faultFree; decide)).2 (by decide) h0⟩

/-! ## Two inventory updates in a row -/

/-- Two calls for one survivor, one after the other, with payloads that may
differ: when the survivor had at most one inventory record and each call
returns no error after an answered read, one record remains and the second
payload stands, in the record and on the survivor rows. -/
theorem upsert_serial_last_wins (db : Db) (sid : Int) (inv1 inv2 : Inventory)
    (hc : db.store.inventoryCount sid ≤ 1)
    (hok1 : (updateSurvivorInventory db sid inv1).2 = none)
    (hread1 : db.advance.advance.advance.fault = false)
    (hok2 : (updateSurvivorInventory (updateSurvivorInventory db sid inv1).1 sid inv2).2 = none)
    (hread2 : (updateSurvivorInventory db sid inv1).1.advance.advance.advance.fault = false) :
    (updateSurvivorInventory (updateSurvivorInventory db sid inv1).1 sid inv2).1.store.inventoryCount
      sid = 1 ∧
    (∀ r ∈ (updateSurvivorInventory (updateSurvivorInventory db sid inv1).1 sid inv2).1.store.inventory,
      r.survivorId = sid → r.levels = inv2) ∧
    (∀ r ∈ (updateSurvivorInventory (updateSurvivorInventory db sid inv1).1 sid inv2).1.store.survivors,
      r.id = sid → r.levels = inv2) := by
  have h1 := updateSurvivorInventory_commit db sid inv1 hok1 hread1
  have c1 : (updateSurvivorInventory db sid inv1).1.store.inventoryCount sid ≤ 1 := by
    rw [h1, (upserted_spec db sid inv1 hc).1]
  have h2 := updateSurvivorInventory_commit _ sid inv2 hok2 hread2
  have s2 := upserted_spec (updateSurvivorInventory db sid inv1).1 sid inv2 c1
  rw [h2]
  exact ⟨s2.1, s2.2.1, s2.2.2.1⟩

/-! ## Claims on robots and statistics -/

/-- The loop never writes to the slice. -/
theorem rangeStep_robots (st : RangeState) (elem : Robot) :
    (rangeStep st elem).robots = st.robots := by
  unfold rangeStep
  simp only []
  split <;> rfl

theorem foldl_rangeStep_robots (elems : List Robot) :
    ∀ st : RangeState, (elems.foldl rangeStep st).robots = st.robots := by
  induction elems with
  | nil => intro st; rfl
  | cons e rest ih =>
    intro st
    rw [List.foldl_cons, ih, rangeStep_robots]

/-- C15. The category adjustment loop of `fetchRobots` has no effect on the
result: for every decoded list of robots, the list returned is the decoded
list, element for element, without error, so the categories returned are the
categories decoded, `"Flying"` included. -/
theorem fetchRobots_returns_decoded (robots : List Robot) :
    fetchRobots (RobotFeed.decoded robots) = (robots, none) ∧
    (fetchRobots (RobotFeed.decoded robots)).1.map Robot.category
      = robots.map Robot.category ∧
    (fetchRobots (RobotFeed.decoded robots)).1.filter (fun r => decide (r.category = "Flying"))
      = robots.filter (fun r => decide (r.category = "Flying")) := by
  have h : fetchRobots (RobotFeed.decoded robots) = (robots, none) := by
    simp only [fetchRobots, foldl_rangeStep_robots]
  rw [h]
  exact ⟨rfl, rfl, rfl⟩

theorem counts_add (l : List SurvivorRow) :
    (l.filter fun r => r.infected).length + (l.filter fun r => !r.infected).length
      = l.length := by
  induction l with
  | nil => rfl
  | cons a t ih =>
    cases ha : a.infected <;> simp [List.filter, ha] <;> omega

/-- C16. On a non-empty survivors table with `i` infected and `n`
non-infected rows, when the store answers the query,
`getSurvivorPercentagesHandler` replies 200 with
`infected = floor(100*i/(i+n))` and
`non_infected = floor(100*n/(i+n)) - floor(100*i/(i+n))`; the latter is 0
when `i = n` and negative when `i > n`. -/
theorem percentages_reply (db : Db) (hf : db.fault = false)
    (hne : db.store.survivors ≠ []) :
    (getSurvivorPercentagesHandler db).2
      = PercentagesReply.ok
          ((100 * db.store.infectedCount
              / (db.store.infectedCount + db.store.nonInfectedCount) : Nat) : Int)
          (((100 * db.store.nonInfectedCount
              / (db.store.infectedCount + db.store.nonInfectedCount) : Nat) : Int)
            - ((100 * db.store.infectedCount
              / (db.store.infectedCount + db.store.nonInfectedCount) : Nat) : Int)) ∧
    (db.store.infectedCount = db.store.nonInfectedCount →
      (getSurvivorPercentagesHandler db).2 = PercentagesReply.ok 50 0) ∧
    (db.store.nonInfectedCount < db.store.infectedCount →
      ∃ a b : Int, (getSurvivorPercentagesHandler db).2 = PercentagesReply.ok a b ∧ b < 0) := by
  have hlen : db.store.infectedCount + db.store.nonInfectedCount = db.store.survivors.length :=
    counts_add db.store.survivors
  have hpos : 0 < db.store.survivors.length := List.length_pos.mpr hne
  have hreply : (getSurvivorPercentagesHandler db).2
      = PercentagesReply.ok
          ((100 * db.store.infectedCount
              / (db.store.infectedCount + db.store.nonInfectedCount) : Nat) : Int)
          (((100 * db.store.nonInfectedCount
              / (db.store.infectedCount + db.store.nonInfectedCount) : Nat) : Int)
            - ((100 * db.store.infectedCount
              / (db.store.infectedCount + db.store.nonInfectedCount) : Nat) : Int)) := by
    have h0 : ¬ db.store.survivors.length = 0 := by omega
    simp only [getSurvivorPercentagesHandler, hf, Store.percentages?, h0, hlen, if_false,
      Nat.mul_comm]
    rfl
  refine ⟨hreply, ?_, ?_⟩
  · intro heq
    rw [hreply, ← heq]
    have hi : 0 < db.store.infectedCount := by omega
    have : 100 * db.store.infectedCount / (db.store.infectedCount + db.store.infectedCount)
        = 50 := by
      apply Nat.div_eq_of_eq_mul_left (by omega)
      omega
    rw [this]
    rfl
  · intro hlt
    refine ⟨_, _, hreply, ?_⟩
    have hd : 0 < db.store.infectedCount + db.store.nonInfectedCount := by omega
    have h1 : 100 * db.store.nonInfectedCount
        / (db.store.infectedCount + db.store.nonInfectedCount) < 50 := by
      rw [Nat.div_lt_iff_lt_mul hd]
      omega
    have h2 : 50 ≤ 100 * db.store.infectedCount
        / (db.store.infectedCount + db.store.nonInfectedCount) := by
      rw [Nat.le_div_iff_mul_le hd]
      omega
    omega

/-- Witness of C16: two infected survivors and one that is not; the reply
reports 66 and -33. -/
theorem percentages_reply_witness :
    (getSurvivorPercentagesHandler (sampleDb [sampleSurvivor 1 true 3, sampleSurvivor 2 false 0,
      sampleSurvivor 3 true 3] [] [])).2 = PercentagesReply.ok 66 (-33) :=
  (percentages_reply (sampleDb [sampleSurvivor 1 true 3, sampleSurvivor 2 false 0,
    sampleSurvivor 3 true 3] [] []) (by decide) (by simp [sampleDb])).1.trans (by decide)

end RobotApocalypse
